import Mathlib

/-!
The collection cycle of maxctrl_exporter.

A shallow embedding of `maxctrl_exporter.go`, `prometheus_metrics.go` and
`maxscale_api.go`.

Conventions of the embedding:

* A Go `string` is a Lean `String`. The two library functions used on strings,
  `strings.Contains` and `strings.Replace`, are written over the character list.
  The strings handled here come out of the JSON decoder (valid UTF-8) and the
  patterns are ASCII, where matching by byte and by character agree.
* A Go `int` that is only carried from a decoded record into a sample is an `Int`
  (no arithmetic is done on it). The sample value `float64(value)` is recorded as
  the integer that is converted.
* A channel `chan<- prometheus.Metric` is the list of what has been sent on it,
  oldest first; a function that sends takes the list and returns the longer one.
* A Go panic is `Except.error` in the `Except Panic` monad.
* An `error` value is its message.
-/

set_option autoImplicit false

namespace MaxCtrl

/-! ## Strings -/

/-- Go `strings.HasPrefix` on character lists. -/
def hasPrefix : List Char → List Char → Bool
  | _, [] => true
  | [], _ :: _ => false
  | c :: cs, p :: ps => c == p && hasPrefix cs ps

/-- Go `strings.Contains` on character lists: `substr` occurs somewhere in `s`. -/
def containsChars : List Char → List Char → Bool
  | [], substr => hasPrefix [] substr
  | c :: cs, substr => hasPrefix (c :: cs) substr || containsChars cs substr

/-- Go `strings.Contains(s, substr)`. -/
def stringsContains (s substr : String) : Bool :=
  containsChars s.data substr.data

/-- The loop of Go `strings.Replace(s, old, new, -1)` for a non-empty `old`:
scanning left to right, each leftmost occurrence of `old` is replaced by `new`
and the scan resumes right after the occurrence. `skip` counts the characters of
the occurrence just replaced that are still to be passed over. -/
def replaceChars (old new : List Char) : Nat → List Char → List Char
  | _, [] => []
  | skip + 1, _ :: cs => replaceChars old new skip cs
  | 0, c :: cs =>
    if hasPrefix (c :: cs) old then new ++ replaceChars old new (old.length - 1) cs
    else c :: replaceChars old new 0 cs

/-- Go `strings.Replace(s, old, new, -1)` with an empty `old`: `new` is inserted
before every character and at the end. -/
def interleaveChars (new : List Char) : List Char → List Char
  | [] => new
  | c :: cs => new ++ c :: interleaveChars new cs

/-- Go `strings.Replace(s, old, new, -1)`: every non-overlapping occurrence of
`old` in `s` replaced by `new`. -/
def stringsReplaceAll (s old new : String) : String :=
  if old = new then s
  else if old.data = [] then ⟨interleaveChars new.data s.data⟩
  else ⟨replaceChars old.data new.data 0 s.data⟩

/-! ## serverUp and the status normalisation of parseServers -/

/-- Go `serverUp`. -/
def serverUp (status : String) : Int :=
  if stringsContains status ",Down," then 0
  else if stringsContains status ",Running," then 1
  else 0

/-- The expression bound to `normalizedStatus` in `parseServers`:
`"," + strings.Replace(state, ", ", ",", -1) + ","`. -/
def normalizedStatus (state : String) : String :=
  "," ++ stringsReplaceAll state ", " "," ++ ","

/-! ## The metric registry (prometheus_metrics.go) -/

/-- Go `prometheus.ValueType`. The constants start at one (`_ = iota`), so the
zero value of the type, here `zero`, is none of the three declared kinds. -/
inductive ValueType where
  | zero
  | CounterValue
  | GaugeValue
  | UntypedValue
  deriving DecidableEq, Repr

/-- Go `prometheus.Desc`, as far as this program sets and reads it: the fully
qualified name, the help text, the names of the variable labels, and the error
recorded by `NewDesc` when the names are not acceptable. -/
structure Desc where
  fqName : String
  help : String
  variableLabels : List String
  err : Option String
  deriving DecidableEq, Repr

/-- Go `Metric` of prometheus_metrics.go. `Desc` is a pointer: `none` is `nil`. -/
structure Metric where
  Desc : Option Desc
  ValueType : ValueType
  deriving DecidableEq, Repr

/-- Go `Namespace`. -/
def Namespace : String := "maxctrl"

/-- Go `prometheus.BuildFQName`. -/
def BuildFQName (nspace subsystem name : String) : String :=
  if name = "" then ""
  else if nspace ≠ "" ∧ subsystem ≠ "" then nspace ++ "_" ++ subsystem ++ "_" ++ name
  else if nspace ≠ "" then nspace ++ "_" ++ name
  else if subsystem ≠ "" then subsystem ++ "_" ++ name
  else name

/-- A letter or an underscore. -/
def isNameStart (c : Char) : Bool := c.isAlpha || c == '_'

/-- Prometheus `model.IsValidMetricName` (the classic character set):
`[a-zA-Z_:][a-zA-Z0-9_:]*`. -/
def isValidMetricName (s : String) : Bool :=
  match s.data with
  | [] => false
  | c :: cs => (isNameStart c || c == ':') && cs.all (fun d => d.isAlphanum || d == '_' || d == ':')

/-- Prometheus `checkLabelName`: `[a-zA-Z_][a-zA-Z0-9_]*`, not starting with `__`. -/
def checkLabelName (l : String) : Bool :=
  match l.data with
  | [] => false
  | c :: cs =>
    isNameStart c && cs.all (fun d => d.isAlphanum || d == '_') && !hasPrefix (c :: cs) ['_', '_']

/-- Go `prometheus.NewDesc(fqName, help, variableLabels, nil)`: the descriptor keeps
its arguments; an unacceptable metric name, an unacceptable label name or a
repeated label name is recorded in `err`. -/
def NewDesc (fqName help : String) (variableLabels : List String) : Desc :=
  { fqName := fqName, help := help, variableLabels := variableLabels,
    err :=
      if !isValidMetricName fqName then some (fqName ++ " is not a valid metric name")
      else match variableLabels.find? (fun l => !checkLabelName l) with
        | some l => some (l ++ " is not a valid label name for metric " ++ fqName)
        | none =>
          if variableLabels.eraseDups.length ≠ variableLabels.length then
            some ("duplicate label names in constant and variable labels for metric " ++ fqName)
          else none }

def serverLabelNames : List String := ["server", "address"]
def serverUpLabelNames : List String := ["server", "address", "status"]
def serviceLabelNames : List String := ["name", "router"]
def monitorLabelNames : List String := ["name", "cooperative_monitoring_locks"]
def maxscaleStatusLabelNames : List String := []
def statusLabelNames : List String := ["id"]

/-- Go `type metrics map[string]Metric`, as the list of its entries. A map literal
has no repeated key, so the first entry with a key is the only one. -/
abbrev metrics := List (String × Metric)

/-- Go map indexing `metricsMap[metricKey]`: the entry stored under the key, and
the zero value of `Metric` (a nil `Desc`, the zero `ValueType`) when there is
none. Indexing a map never fails in Go. -/
def metrics.index (metricsMap : metrics) (metricKey : String) : Metric :=
  match metricsMap.lookup metricKey with
  | some metric => metric
  | none => { Desc := none, ValueType := ValueType.zero }

/-- Go `newDesc`. -/
def newDesc (subsystem name help : String) (variableLabels : List String) (t : ValueType) :
    Metric :=
  { Desc := some (NewDesc (BuildFQName Namespace subsystem name) help variableLabels),
    ValueType := t }

open ValueType in
/-- Go `ServerMetrics`. -/
def ServerMetrics : metrics := [
  ("server_connections", newDesc "server" "connections" "Amount of connections to the server" serverLabelNames GaugeValue),
  ("server_up", newDesc "server" "up" "Is the server up" serverUpLabelNames GaugeValue)]

open ValueType in
/-- Go `ServiceMetrics`. -/
def ServiceMetrics : metrics := [
  ("service_current_sessions", newDesc "service" "current_sessions" "Amount of sessions currently active" serviceLabelNames GaugeValue),
  ("service_sessions_total", newDesc "service" "total_sessions" "Total amount of sessions" serviceLabelNames CounterValue),
  ("service_max_connections", newDesc "service" "max_connections" "Max connections allowed" serviceLabelNames GaugeValue)]

open ValueType in
/-- Go `MaxscaleStatusMetrics`. -/
def MaxscaleStatusMetrics : metrics := [
  ("status_uptime", newDesc "status" "uptime" "How long has the server been running" maxscaleStatusLabelNames GaugeValue),
  ("status_threads", newDesc "status" "threads" "Number of worker threads" maxscaleStatusLabelNames GaugeValue),
  ("status_writeq_high_water", newDesc "status" "writeq_high_water" "High water mark for network write buffer" maxscaleStatusLabelNames GaugeValue),
  ("status_writeq_low_water", newDesc "status" "writeq_low_water" "Low water mark for network write buffer" maxscaleStatusLabelNames GaugeValue),
  ("status_passive", newDesc "status" "passive" "Has passive mode" maxscaleStatusLabelNames GaugeValue)]

open ValueType in
/-- Go `StatusMetrics`. -/
def StatusMetrics : metrics := [
  ("status_read_events", newDesc "status" "read_events" "How many read events happened" statusLabelNames CounterValue),
  ("status_write_events", newDesc "status" "write_events" "How many write events happened" statusLabelNames CounterValue),
  ("status_error_events", newDesc "status" "error_events" "How many error events happened" statusLabelNames CounterValue),
  ("status_hangup_events", newDesc "status" "hangup_events" "How many hangup events happened" statusLabelNames CounterValue),
  ("status_accept_events", newDesc "status" "accept_events" "How many accept events happened" statusLabelNames CounterValue),
  ("status_avg_event_queue_length", newDesc "status" "avg_event_queue_length" "The average length of the event queue" statusLabelNames GaugeValue),
  ("status_max_event_queue_length", newDesc "status" "max_event_queue_length" "The maximum length of the event queue" statusLabelNames GaugeValue),
  ("status_max_event_exec_time", newDesc "status" "max_event_exec_time" "The maximum event execution time" statusLabelNames GaugeValue),
  ("status_max_event_queue_time", newDesc "status" "max_event_queue_time" "The maximum event queue time" statusLabelNames GaugeValue),
  ("status_current_descriptors", newDesc "status" "current_descriptors" "How many current descriptors there are" statusLabelNames GaugeValue),
  ("status_total_descriptors", newDesc "status" "total_descriptors" "How many total descriptors there are" statusLabelNames CounterValue),
  ("status_load_last_second", newDesc "status" "load_last_second" "The load during the last measured second" statusLabelNames GaugeValue),
  ("status_load_last_minute", newDesc "status" "load_last_minute" "The load during the last measured minute" statusLabelNames GaugeValue),
  ("status_load_last_hour", newDesc "status" "load_last_hour" "The load during the last measured hour" statusLabelNames GaugeValue),
  ("status_query_classifier_cache_size", newDesc "status" "query_classifier_cache_size" "The query classifier cache size" statusLabelNames GaugeValue),
  ("status_query_classifier_cache_inserts", newDesc "status" "query_classifier_cache_inserts" "The number of inserts into the query classifier cache" statusLabelNames GaugeValue),
  ("status_query_classifier_cache_hits", newDesc "status" "query_classifier_cache_hits" "The number of hits in the query classifier cache" statusLabelNames GaugeValue),
  ("status_query_classifier_cache_misses", newDesc "status" "query_classifier_cache_misses" "The number of misses in the query classifier cache" statusLabelNames GaugeValue),
  ("status_query_classifier_cache_evictions", newDesc "status" "query_classifier_cache_evictions" "The number of evictions in the query classifier cache" statusLabelNames GaugeValue)]

open ValueType in
/-- Go `MonitorMetrics`. -/
def MonitorMetrics : metrics := [
  ("monitor_primary", newDesc "monitor" "primary" "Is a primary node" monitorLabelNames GaugeValue),
  ("monitor_auto_failover", newDesc "monitor" "auto_failover" "Is auto-failover enable" monitorLabelNames CounterValue),
  ("monitor_auto_rejoin", newDesc "monitor" "auto_rejoin" "Is auto-rejoin enable" monitorLabelNames GaugeValue)]

/-! ## Samples, gauges, counters and the channel -/

/-- Go `prometheus.Gauge` as made by `prometheus.NewGauge`: its descriptor and the
value last set. -/
structure Gauge where
  desc : Desc
  val : Int
  deriving DecidableEq, Repr

/-- Go `Gauge.Set`. -/
def Gauge.Set (g : Gauge) (v : Int) : Gauge := { g with val := v }

/-- Go `prometheus.Counter` as made by `prometheus.NewCounter`: its descriptor and
the number of increments so far. -/
structure Counter where
  desc : Desc
  val : Nat
  deriving DecidableEq, Repr

/-- Go `Counter.Inc`: the counter goes up by one. The count is a natural number:
the bound of the library's machine word is not modelled. -/
def Counter.Inc (c : Counter) : Counter := { c with val := c.val + 1 }

/-- Go `prometheus.NewGauge(GaugeOpts{Namespace, Name, Help})`: no subsystem, no
labels, value zero. -/
def NewGauge (nspace name help : String) : Gauge :=
  { desc := NewDesc (BuildFQName nspace "" name) help [], val := 0 }

/-- Go `prometheus.NewCounter(CounterOpts{Namespace, Name, Help})`. -/
def NewCounter (nspace name help : String) : Counter :=
  { desc := NewDesc (BuildFQName nspace "" name) help [], val := 0 }

/-- What is sent on a `chan<- prometheus.Metric`: a constant metric built by
`MustNewConstMetric`, the health gauge, or the scrape counter. -/
inductive PMetric where
  | constMetric (desc : Desc) (valType : ValueType) (val : Int) (labelValues : List String)
  | gauge (g : Gauge)
  | counter (c : Counter)
  deriving DecidableEq, Repr

/-- The descriptor a sent metric reports (Go `Metric.Desc()`). -/
def PMetric.Desc : PMetric → Desc
  | .constMetric desc _ _ _ => desc
  | .gauge g => g.desc
  | .counter c => c.desc

/-- The contents of a channel: everything sent so far, oldest first. -/
abbrev Chan := List PMetric

/-- A Go panic: the runtime error of reading through a nil pointer, or a panic
raised with an error value. -/
inductive Panic where
  | nilPointerDereference
  | error (msg : String)
  deriving DecidableEq, Repr

/-- Go `prometheus.NewConstMetric`: fails on a descriptor that carries an error, on a
number of label values different from the number of label names, and on a value
type that is none of counter, gauge, untyped. (Label values are also required to be
valid UTF-8, which a `String` is.) -/
def NewConstMetric (desc : Desc) (valueType : ValueType) (value : Int)
    (labelValues : List String) : Except String PMetric :=
  match desc.err with
  | some e => .error e
  | none =>
    if labelValues.length ≠ desc.variableLabels.length then
      .error "inconsistent label cardinality"
    else if valueType = ValueType.zero then
      .error "encountered unknown type"
    else .ok (PMetric.constMetric desc valueType value labelValues)

/-- Go `prometheus.MustNewConstMetric`: panics where `NewConstMetric` returns an
error. The descriptor is a pointer that `NewConstMetric` reads at once, so a nil
descriptor is a nil-pointer panic. -/
def MustNewConstMetric (desc : Option Desc) (valueType : ValueType) (value : Int)
    (labelValues : List String) : Except Panic PMetric :=
  match desc with
  | none => .error Panic.nilPointerDereference
  | some d =>
    match NewConstMetric d valueType value labelValues with
    | .error e => .error (Panic.error e)
    | .ok metric => .ok metric

/-! ## The decoded API records (maxscale_api.go)

Only the fields with a concrete type are kept; the `interface{}` fields
(`Links`, `Relationships`, ...) and `Type` are read by nothing. -/

structure ServerParameters where
  Address : String
  deriving DecidableEq, Repr

structure ServerStatistics where
  Connections : Int
  deriving DecidableEq, Repr

structure ServerAttributes where
  Parameters : ServerParameters
  State : String
  Statistics : ServerStatistics
  deriving DecidableEq, Repr

structure Server where
  ID : String
  Attributes : ServerAttributes
  deriving DecidableEq, Repr

/-- Go `Servers`. -/
structure Servers where
  Data : List Server
  deriving DecidableEq, Repr

structure ServiceAttributes where
  Router : String
  Connections : Int
  deriving DecidableEq, Repr

structure Service where
  ID : String
  Attributes : ServiceAttributes
  deriving DecidableEq, Repr

/-- Go `Services`. -/
structure Services where
  Data : List Service
  deriving DecidableEq, Repr

/-- The `Parameters` of `MaxscaleStatus`.

Modelled from the spec: the field `Passive`, which `parseMaxscaleStatus` reads and
the declaration in maxscale_api.go lacks; the spec describes it as the boolean
behind the passive-mode flag. -/
structure MaxscaleParameters where
  Threads : Int
  Passive : Bool
  deriving DecidableEq, Repr

structure MaxscaleAttributes where
  Parameters : MaxscaleParameters
  Uptime : Int
  deriving DecidableEq, Repr

structure MaxscaleData where
  Attributes : MaxscaleAttributes
  deriving DecidableEq, Repr

/-- Go `MaxscaleStatus`. -/
structure MaxscaleStatus where
  Data : MaxscaleData
  deriving DecidableEq, Repr

structure ThreadLoad where
  LastSecond : Int
  LastMinute : Int
  LastHour : Int
  deriving DecidableEq, Repr

structure ThreadQueryClassifierCache where
  Size : Int
  Inserts : Int
  Hits : Int
  Misses : Int
  Evictions : Int
  deriving DecidableEq, Repr

structure ThreadStats where
  Reads : Int
  Writes : Int
  Errors : Int
  Hangups : Int
  Accepts : Int
  AvgEventQueueLength : Int
  MaxEventQueueLength : Int
  MaxExecTime : Int
  MaxQueueTime : Int
  CurrentDescriptors : Int
  TotalDescriptors : Int
  Load : ThreadLoad
  QueryClassifierCache : ThreadQueryClassifierCache
  deriving DecidableEq, Repr

structure ThreadAttributes where
  Stats : ThreadStats
  deriving DecidableEq, Repr

structure Thread where
  ID : String
  Attributes : ThreadAttributes
  deriving DecidableEq, Repr

/-- Go `ThreadStatus`. -/
structure ThreadStatus where
  Data : List Thread
  deriving DecidableEq, Repr

/-! ## The exporter (maxctrl_exporter.go) -/

/-- Go `x509.CertPool`: the certificate bundles added to it. -/
abbrev CertPool := List String

/-- Go `http.Transport` as configured here: `TLSClientConfig.RootCAs`. -/
structure Transport where
  RootCAs : CertPool
  deriving DecidableEq, Repr

/-- Go `MaxScale`. -/
structure MaxScale where
  url : String
  username : String
  password : String
  transport : Transport
  up : Gauge
  totalScrapes : Counter
  serverMetrics : metrics
  serviceMetrics : metrics
  maxscaleStatusMetrics : metrics
  statusMetrics : metrics
  deriving DecidableEq, Repr

/-- What `NewExporter` asks of the machine it starts on: `x509.SystemCertPool`
(`none` when it returns nil), `os.ReadFile`, and whether `AppendCertsFromPEM`
accepts a bundle. -/
structure Host where
  SystemCertPool : Option CertPool
  ReadFile : String → Except String String
  AppendCertsFromPEM : String → Bool

/-- The two `log.Fatalf` exits of `NewExporter`. -/
inductive Fatal where
  | openCertificate (file err : String)
  | appendCertificate (file : String)
  deriving DecidableEq, Repr

/-- Go `NewExporter`. A `log.Fatalf` ends the process: `Except.error`. -/
def NewExporter (host : Host) (url username password caCertificate : String) :
    Except Fatal MaxScale :=
  let rootCAs : CertPool :=
    match host.SystemCertPool with
    | some pool => pool
    | none => []
  let withCerts : Except Fatal CertPool :=
    if caCertificate.length > 0 then
      match host.ReadFile caCertificate with
      | .error err => .error (Fatal.openCertificate caCertificate err)
      | .ok certs =>
        if host.AppendCertsFromPEM certs then .ok (rootCAs ++ [certs])
        else .error (Fatal.appendCertificate caCertificate)
    else .ok rootCAs
  match withCerts with
  | .error f => .error f
  | .ok rootCAs =>
    .ok {
      url := url
      username := username
      password := password
      transport := { RootCAs := rootCAs }
      up := NewGauge Namespace "up" "Was the last scrape of MaxScale successful?"
      totalScrapes := NewCounter Namespace "exporter_total_scrapes" "Current total MaxScale scrapes"
      serverMetrics := ServerMetrics
      serviceMetrics := ServiceMetrics
      maxscaleStatusMetrics := MaxscaleStatusMetrics
      statusMetrics := StatusMetrics }

/-- Go `http.Request` as built by `getStatistics`. -/
structure Request where
  Method : String
  URL : String
  BasicAuth : Option (String × String)
  deriving DecidableEq, Repr

/-- Go `Request.SetBasicAuth`. -/
def Request.SetBasicAuth (req : Request) (username password : String) : Request :=
  { req with BasicAuth := some (username, password) }

/-- Go `http.Response` as read by `getStatistics`. -/
structure Response where
  StatusCode : Int
  Status : String
  Body : String
  deriving DecidableEq, Repr

/-- What one collection cycle meets outside the program: whether `http.NewRequest`
accepts a URL (`some err` when it does not), the answer of `client.Do` to a request
(a transport error or a response), and the JSON decoder for each of the four
record types (`json.NewDecoder(body).Decode(&v)`: the decoded record or an error). -/
structure World where
  newRequestErr : String → Option String
  clientDo : Transport → Request → Except String Response
  decodeServers : String → Except String Servers
  decodeServices : String → Except String Services
  decodeMaxscaleStatus : String → Except String MaxscaleStatus
  decodeThreadStatus : String → Except String ThreadStatus

/-- Go `MaxScale.getStatistics`, for the record type decoded by `decode`. -/
def getStatistics {α : Type} (m : MaxScale) (w : World) (path : String)
    (decode : String → Except String α) : Except String α :=
  match w.newRequestErr (m.url ++ "/v1" ++ path) with
  | some err => .error err
  | none =>
    let req : Request := { Method := "GET", URL := m.url ++ "/v1" ++ path, BasicAuth := none }
    let req := req.SetBasicAuth m.username m.password
    match w.clientDo m.transport req with
    | .error err => .error ("error while getting " ++ path ++ ": " ++ err)
    | .ok resp =>
      if resp.StatusCode ≠ 200 then
        .error ("the MaxScale statistic request failed with a status: " ++ resp.Status)
      else decode resp.Body

/-- Go `MaxScale.createMetricForPrometheus`: index the map, build the constant
metric, send it. Returns the channel with the metric appended, or the panic of
`MustNewConstMetric`, in which case nothing was sent. -/
def createMetricForPrometheus (_m : MaxScale) (metricsMap : metrics) (metricKey : String)
    (value : Int) (ch : Chan) (labelValues : List String) : Except Panic Chan :=
  let metric := metricsMap.index metricKey
  match MustNewConstMetric metric.Desc metric.ValueType value labelValues with
  | .error p => .error p
  | .ok sample => .ok (ch ++ [sample])

/-- The arguments of one call of `createMetricForPrometheus` that vary from call to
call: the key, the value and the label values. -/
structure Call where
  metricKey : String
  value : Int
  labelValues : List String
  deriving DecidableEq, Repr

/-- A straight-line sequence of `createMetricForPrometheus` calls on one map, in
program order; a panic ends it. -/
def createMetrics (m : MaxScale) (metricsMap : metrics) : List Call → Chan → Except Panic Chan
  | [], ch => .ok ch
  | c :: cs, ch =>
    match createMetricForPrometheus m metricsMap c.metricKey c.value ch c.labelValues with
    | .error p => .error p
    | .ok ch => createMetrics m metricsMap cs ch

/-- A Go `for _, x := range xs` whose body is a sequence of
`createMetricForPrometheus` calls on one map. -/
def forEach {α : Type} (m : MaxScale) (metricsMap : metrics) (body : α → List Call) :
    List α → Chan → Except Panic Chan
  | [], ch => .ok ch
  | x :: xs, ch =>
    match createMetrics m metricsMap (body x) ch with
    | .error p => .error p
    | .ok ch => forEach m metricsMap body xs ch

/-- The body of the loop of `parseServers`: its two calls. -/
def serverCalls (server : Server) : List Call :=
  let serverID := server.ID
  let serverAddress := server.Attributes.Parameters.Address
  let normalizedStatus := normalizedStatus server.Attributes.State
  [ { metricKey := "server_connections", value := server.Attributes.Statistics.Connections,
      labelValues := [serverID, serverAddress] },
    { metricKey := "server_up", value := serverUp normalizedStatus,
      labelValues := [serverID, serverAddress, normalizedStatus] } ]

/-- Go `MaxScale.parseServers`: the returned error (`none` is nil) and the channel. -/
def parseServers (m : MaxScale) (w : World) (ch : Chan) : Except Panic (Option String × Chan) :=
  match getStatistics m w "/servers" w.decodeServers with
  | .error err => .ok (some err, ch)
  | .ok servers =>
    match forEach m m.serverMetrics serverCalls servers.Data ch with
    | .error p => .error p
    | .ok ch => .ok (none, ch)

/-- The body of the loop of `parseServices`: its two calls. -/
def serviceCalls (service : Service) : List Call :=
  [ { metricKey := "service_current_sessions", value := service.Attributes.Connections,
      labelValues := [service.ID, service.Attributes.Router] },
    { metricKey := "service_sessions_total", value := service.Attributes.Connections,
      labelValues := [service.ID, service.Attributes.Router] } ]

/-- Go `MaxScale.parseServices`. -/
def parseServices (m : MaxScale) (w : World) (ch : Chan) : Except Panic (Option String × Chan) :=
  match getStatistics m w "/services" w.decodeServices with
  | .error err => .ok (some err, ch)
  | .ok services =>
    match forEach m m.serviceMetrics serviceCalls services.Data ch with
    | .error p => .error p
    | .ok ch => .ok (none, ch)

/-- The three calls of `parseMaxscaleStatus`. -/
def maxscaleStatusCalls (maxscaleStatus : MaxscaleStatus) : List Call :=
  let passiveMode : Int := if maxscaleStatus.Data.Attributes.Parameters.Passive then 1 else 0
  [ { metricKey := "status_uptime", value := maxscaleStatus.Data.Attributes.Uptime,
      labelValues := [] },
    { metricKey := "status_threads", value := maxscaleStatus.Data.Attributes.Parameters.Threads,
      labelValues := [] },
    { metricKey := "status_passive", value := passiveMode, labelValues := [] } ]

/-- Go `MaxScale.parseMaxscaleStatus`. -/
def parseMaxscaleStatus (m : MaxScale) (w : World) (ch : Chan) :
    Except Panic (Option String × Chan) :=
  match getStatistics m w "/maxscale" w.decodeMaxscaleStatus with
  | .error err => .ok (some err, ch)
  | .ok maxscaleStatus =>
    match createMetrics m m.maxscaleStatusMetrics (maxscaleStatusCalls maxscaleStatus) ch with
    | .error p => .error p
    | .ok ch => .ok (none, ch)

/-- The body of the loop of `parseThreadStatus`: its nineteen calls. -/
def threadStatusCalls (threadStatus : Thread) : List Call :=
  [ ⟨"status_read_events", threadStatus.Attributes.Stats.Reads, [threadStatus.ID]⟩,
    ⟨"status_write_events", threadStatus.Attributes.Stats.Writes, [threadStatus.ID]⟩,
    ⟨"status_error_events", threadStatus.Attributes.Stats.Errors, [threadStatus.ID]⟩,
    ⟨"status_hangup_events", threadStatus.Attributes.Stats.Hangups, [threadStatus.ID]⟩,
    ⟨"status_accept_events", threadStatus.Attributes.Stats.Accepts, [threadStatus.ID]⟩,
    ⟨"status_avg_event_queue_length", threadStatus.Attributes.Stats.AvgEventQueueLength, [threadStatus.ID]⟩,
    ⟨"status_max_event_queue_length", threadStatus.Attributes.Stats.MaxEventQueueLength, [threadStatus.ID]⟩,
    ⟨"status_max_event_exec_time", threadStatus.Attributes.Stats.MaxExecTime, [threadStatus.ID]⟩,
    ⟨"status_max_event_queue_time", threadStatus.Attributes.Stats.MaxQueueTime, [threadStatus.ID]⟩,
    ⟨"status_current_descriptors", threadStatus.Attributes.Stats.CurrentDescriptors, [threadStatus.ID]⟩,
    ⟨"status_total_descriptors", threadStatus.Attributes.Stats.TotalDescriptors, [threadStatus.ID]⟩,
    ⟨"status_load_last_second", threadStatus.Attributes.Stats.Load.LastSecond, [threadStatus.ID]⟩,
    ⟨"status_load_last_minute", threadStatus.Attributes.Stats.Load.LastMinute, [threadStatus.ID]⟩,
    ⟨"status_load_last_hour", threadStatus.Attributes.Stats.Load.LastHour, [threadStatus.ID]⟩,
    ⟨"status_query_classifier_cache_size", threadStatus.Attributes.Stats.QueryClassifierCache.Size, [threadStatus.ID]⟩,
    ⟨"status_query_classifier_cache_inserts", threadStatus.Attributes.Stats.QueryClassifierCache.Inserts, [threadStatus.ID]⟩,
    ⟨"status_query_classifier_cache_hits", threadStatus.Attributes.Stats.QueryClassifierCache.Hits, [threadStatus.ID]⟩,
    ⟨"status_query_classifier_cache_misses", threadStatus.Attributes.Stats.QueryClassifierCache.Misses, [threadStatus.ID]⟩,
    ⟨"status_query_classifier_cache_evictions", threadStatus.Attributes.Stats.QueryClassifierCache.Evictions, [threadStatus.ID]⟩ ]

/-- Go `MaxScale.parseThreadStatus`. -/
def parseThreadStatus (m : MaxScale) (w : World) (ch : Chan) :
    Except Panic (Option String × Chan) :=
  match getStatistics m w "/maxscale/threads" w.decodeThreadStatus with
  | .error err => .ok (some err, ch)
  | .ok threadStatus =>
    match forEach m m.statusMetrics threadStatusCalls threadStatus.Data ch with
    | .error p => .error p
    | .ok ch => .ok (none, ch)

/-- What a `Collect` call leaves behind: the exporter, the channel, and the lines
written by `log.Print`. -/
structure Collected where
  m : MaxScale
  ch : Chan
  log : List String

/-- One `if err := parse(ch); err != nil { parseErrors = true; log.Print(err) }` of
`Collect`: the flag and the log after it. -/
def noteError (err : Option String) (parseErrors : Bool) (log : List String) :
    Bool × List String :=
  match err with
  | some e => (true, log ++ [e])
  | none => (parseErrors, log)

/-- Go `MaxScale.Collect`. -/
def Collect (m : MaxScale) (w : World) (ch : Chan) : Except Panic Collected :=
  let m := { m with totalScrapes := m.totalScrapes.Inc }
  let parseErrors := false
  let log : List String := []
  match parseServers m w ch with
  | .error p => .error p
  | .ok (err, ch) =>
  let (parseErrors, log) := noteError err parseErrors log
  match parseServices m w ch with
  | .error p => .error p
  | .ok (err, ch) =>
  let (parseErrors, log) := noteError err parseErrors log
  match parseMaxscaleStatus m w ch with
  | .error p => .error p
  | .ok (err, ch) =>
  let (parseErrors, log) := noteError err parseErrors log
  match parseThreadStatus m w ch with
  | .error p => .error p
  | .ok (err, ch) =>
  let (parseErrors, log) := noteError err parseErrors log
  let m := if parseErrors then { m with up := m.up.Set 0 } else { m with up := m.up.Set 1 }
  .ok { m := m, ch := ch ++ [PMetric.gauge m.up, PMetric.counter m.totalScrapes], log := log }

/-- The invariant of the exporter's four maps: they are the four declared catalogs,
as `NewExporter` sets them; nothing assigns them afterwards. -/
def Declared (m : MaxScale) : Prop :=
  m.serverMetrics = ServerMetrics ∧ m.serviceMetrics = ServiceMetrics ∧
  m.maxscaleStatusMetrics = MaxscaleStatusMetrics ∧ m.statusMetrics = StatusMetrics

instance instDecidableDeclared (m : MaxScale) : Decidable (Declared m) := by
  unfold Declared
  infer_instance

/-- Successive scrapes: the registry calls `Collect` once per scrape with a channel
of its own, and the world may answer differently each time. Returns the exporter
after the last scrape and what each scrape sent. -/
def scrapes (m : MaxScale) : List World → Except Panic (MaxScale × List Chan)
  | [] => .ok (m, [])
  | w :: ws =>
    match Collect m w [] with
    | .error p => .error p
    | .ok r =>
      match scrapes r.m ws with
      | .error p => .error p
      | .ok (m', outs) => .ok (m', r.ch :: outs)

/-! ## Describe -/

/-- Go `MaxScale.Describe`: the descriptor pointer of every entry of the four maps
(a Go `range` over a map visits every entry once, in no fixed order; here in list
order), then the descriptors of the health gauge and of the scrape counter. The
channel carries `*prometheus.Desc`: `none` is nil. -/
def Describe (m : MaxScale) (ch : List (Option Desc)) : List (Option Desc) :=
  let ch := ch ++ m.serverMetrics.map (fun kv => kv.2.Desc)
  let ch := ch ++ m.serviceMetrics.map (fun kv => kv.2.Desc)
  let ch := ch ++ m.maxscaleStatusMetrics.map (fun kv => kv.2.Desc)
  let ch := ch ++ m.statusMetrics.map (fun kv => kv.2.Desc)
  ch ++ [some m.up.desc, some m.totalScrapes.desc]

/-! ## getStatistics with what it does to the outside -/

/-- What `getStatistics` does to the outside, in order: a request handed to
`client.Do`, and a body handed to the JSON decoder. -/
inductive NetEvent where
  | clientDo (req : Request)
  | decode (body : String)
  deriving DecidableEq, Repr

/-- Go `MaxScale.getStatistics` once more, this time returning next to the result
the requests it sent and the bodies it decoded, in order. -/
def getStatisticsTraced {α : Type} (m : MaxScale) (w : World) (path : String)
    (decode : String → Except String α) : Except String α × List NetEvent :=
  match w.newRequestErr (m.url ++ "/v1" ++ path) with
  | some err => (.error err, [])
  | none =>
    let req : Request := { Method := "GET", URL := m.url ++ "/v1" ++ path, BasicAuth := none }
    let req := req.SetBasicAuth m.username m.password
    match w.clientDo m.transport req with
    | .error err => (.error ("error while getting " ++ path ++ ": " ++ err), [NetEvent.clientDo req])
    | .ok resp =>
      if resp.StatusCode ≠ 200 then
        (.error ("the MaxScale statistic request failed with a status: " ++ resp.Status),
          [NetEvent.clientDo req])
      else (decode resp.Body, [NetEvent.clientDo req, NetEvent.decode resp.Body])

/-! ## The configuration read by main -/

/-- The process environment: the value of each variable that is set. -/
abbrev Environ := String → Option String

/-- Go `os.Getenv`: the value of the variable, empty when the variable is not set. -/
def Getenv (environ : Environ) (key : String) : String :=
  match environ key with
  | some value => value
  | none => ""

/-- Go `os.Setenv`. -/
def Setenv (environ : Environ) (key value : String) : Environ :=
  fun k => if k = key then some value else environ k

/-- The variables of `main` that come from the environment. -/
structure MainConfig where
  maxScaleUrl : String
  maxScaleUsername : String
  maxScalePassword : String
  maxScaleExporterPort : String
  maxScaleCACertificate : String
  deriving DecidableEq, Repr

/-- The start of Go `main`: the five `os.Getenv` lookups, four of them with the
default that replaces an empty value. -/
def mainConfig (environ : Environ) : MainConfig :=
  let maxScaleUrl := Getenv environ "MAXSCALE_URL"
  let maxScaleUrl := if maxScaleUrl.length = 0 then "http://127.0.0.1:8989" else maxScaleUrl
  let maxScaleUsername := Getenv environ "MAXSCALE_USERNAME"
  let maxScaleUsername := if maxScaleUsername.length = 0 then "admin" else maxScaleUsername
  let maxScalePassword := Getenv environ "MAXSCALE_PASSWORD"
  let maxScalePassword := if maxScalePassword.length = 0 then "mariadb" else maxScalePassword
  let maxScaleExporterPort := Getenv environ "MAXSCALE_EXPORTER_PORT"
  let maxScaleExporterPort :=
    if maxScaleExporterPort.length = 0 then "8080" else maxScaleExporterPort
  let maxScaleCACertificate := Getenv environ "MAXSCALE_CA_CERTIFICATE"
  { maxScaleUrl := maxScaleUrl
    maxScaleUsername := maxScaleUsername
    maxScalePassword := maxScalePassword
    maxScaleExporterPort := maxScaleExporterPort
    maxScaleCACertificate := maxScaleCACertificate }

/-- Modelled from the spec: `GetEnvVar(name, fallback)`, which the tests call and no
source file defines. The spec has the configuration "sourced from environment
variables with documented defaults"; the function is taken to do for any name and
fallback what `main` does for each of its four: read the variable with `os.Getenv`
and put the fallback in place of an empty value. -/
def GetEnvVar (environ : Environ) (name fallback : String) : String :=
  let value := Getenv environ name
  if value.length = 0 then fallback else value

/-! ## Tokens of a state -/

/-- Go `strings.Join(elems, sep)`: the elements in order with `sep` between
neighbours. Used to write a raw state from its tokens. -/
def stringsJoin : List String → String → String
  | [], _ => ""
  | [a], _ => a
  | a :: b :: rest, sep => a ++ sep ++ stringsJoin (b :: rest) sep

/-! ## Concrete hosts, exporters and worlds, used to run the definitions -/

/-- A host with no system certificate pool and no readable file. -/
def exampleHost : Host :=
  { SystemCertPool := none
    ReadFile := fun _ => .error "no such file or directory"
    AppendCertsFromPEM := fun _ => false }

/-- The exporter started with the defaults of `main` and no CA certificate. -/
def exampleExporter : MaxScale :=
  { url := "http://127.0.0.1:8989"
    username := "admin"
    password := "mariadb"
    transport := { RootCAs := [] }
    up := { desc := ⟨"maxctrl_up", "Was the last scrape of MaxScale successful?", [], none⟩,
            val := 0 }
    totalScrapes :=
      { desc := ⟨"maxctrl_exporter_total_scrapes", "Current total MaxScale scrapes", [], none⟩,
        val := 0 }
    serverMetrics := ServerMetrics
    serviceMetrics := ServiceMetrics
    maxscaleStatusMetrics := MaxscaleStatusMetrics
    statusMetrics := StatusMetrics }

/-- A server record. -/
def exampleServer (id address state : String) (connections : Int) : Server :=
  { ID := id
    Attributes :=
      { Parameters := { Address := address }, State := state,
        Statistics := { Connections := connections } } }

/-- A worker record whose nineteen statistics are `base + 1`, ..., `base + 19` in the
order of the fields. -/
def exampleThread (id : String) (base : Int) : Thread :=
  { ID := id
    Attributes :=
      { Stats :=
          { Reads := base + 1, Writes := base + 2, Errors := base + 3, Hangups := base + 4,
            Accepts := base + 5, AvgEventQueueLength := base + 6,
            MaxEventQueueLength := base + 7, MaxExecTime := base + 8, MaxQueueTime := base + 9,
            CurrentDescriptors := base + 10, TotalDescriptors := base + 11,
            Load := { LastSecond := base + 12, LastMinute := base + 13, LastHour := base + 14 },
            QueryClassifierCache :=
              { Size := base + 15, Inserts := base + 16, Hits := base + 17, Misses := base + 18,
                Evictions := base + 19 } } } }

/-- A world in which every request is answered `200 OK` and the four bodies decode
to: the server s1 at 10.0.0.1 in state "Master, Running" with 5 connections; one
service; a cluster status; two workers. -/
def worldHealthy : World :=
  { newRequestErr := fun _ => none
    clientDo := fun _ _ => .ok { StatusCode := 200, Status := "200 OK", Body := "" }
    decodeServers := fun _ => .ok { Data := [exampleServer "s1" "10.0.0.1" "Master, Running" 5] }
    decodeServices := fun _ =>
      .ok { Data := [{ ID := "rw", Attributes := { Router := "readwritesplit", Connections := 7 } }] }
    decodeMaxscaleStatus := fun _ =>
      .ok { Data := { Attributes := { Parameters := { Threads := 4, Passive := false },
                                      Uptime := 3600 } } }
    decodeThreadStatus := fun _ =>
      .ok { Data := [exampleThread "0" 0, exampleThread "1" 100] } }

/-- The healthy world, except that the cluster-status resource refuses the
connection. -/
def worldClusterDown : World :=
  { worldHealthy with
    clientDo := fun _ req =>
      if req.URL = "http://127.0.0.1:8989/v1/maxscale" then .error "connection refused"
      else .ok { StatusCode := 200, Status := "200 OK", Body := "" } }

/-- A world in which every connection is refused. -/
def worldAllRefused : World :=
  { worldHealthy with clientDo := fun _ _ => .error "connection refused" }

/-- The healthy world, except that the server s1 is in state "Down". -/
def worldServerDown : World :=
  { worldHealthy with
    decodeServers := fun _ => .ok { Data := [exampleServer "s1" "10.0.0.1" "Down" 0] } }

/-- The healthy world, except that every request is answered
`503 Service Unavailable`. -/
def worldUnavailable : World :=
  { worldHealthy with
    clientDo := fun _ _ =>
      .ok { StatusCode := 503, Status := "503 Service Unavailable", Body := "try later" } }

/-! ## Lemmas on the string functions -/

theorem hasPrefix_iff (s p : List Char) : hasPrefix s p = true ↔ p <+: s := by
  induction p generalizing s with
  | nil => simp [hasPrefix]
  | cons a p ih =>
    cases s with
    | nil => simp [hasPrefix]
    | cons c cs =>
      simp only [hasPrefix, Bool.and_eq_true, beq_iff_eq, ih, List.cons_prefix_cons]
      constructor
      · rintro ⟨h, h2⟩
        exact ⟨h.symm, h2⟩
      · rintro ⟨h, h2⟩
        exact ⟨h.symm, h2⟩

theorem containsChars_iff (s substr : List Char) :
    containsChars s substr = true ↔ substr <:+: s := by
  induction s with
  | nil =>
    simp only [containsChars, hasPrefix_iff, List.prefix_nil, List.infix_nil]
  | cons c cs ih =>
    simp only [containsChars, Bool.or_eq_true, hasPrefix_iff, ih, List.infix_cons_iff]

theorem stringsContains_iff (s substr : String) :
    stringsContains s substr = true ↔ substr.data <:+: s.data := by
  simp only [stringsContains, containsChars_iff]

/-- The scan of `strings.Replace(s, ", ", ",", -1)` at a comma followed by a
space: the pair becomes a comma. -/
theorem replaceChars_match (cs : List Char) :
    replaceChars [',', ' '] [','] 0 (',' :: ' ' :: cs) =
      ',' :: replaceChars [',', ' '] [','] 0 cs := by
  simp [replaceChars, hasPrefix]

/-- The scan of `strings.Replace(s, ", ", ",", -1)` anywhere else: the character is
kept. -/
theorem replaceChars_keep (c : Char) (cs : List Char)
    (h : hasPrefix (c :: cs) [',', ' '] = false) :
    replaceChars [',', ' '] [','] 0 (c :: cs) = c :: replaceChars [',', ' '] [','] 0 cs := by
  simp [replaceChars, h]

theorem hasPrefix_comma_space (c : Char) (cs : List Char)
    (h : hasPrefix (c :: cs) [',', ' '] = true) : ∃ r, c = ',' ∧ cs = ' ' :: r := by
  cases cs with
  | nil => simp [hasPrefix] at h
  | cons d r =>
    simp only [hasPrefix, Bool.and_true, Bool.and_eq_true, beq_iff_eq] at h
    exact ⟨r, h.1, by rw [h.2]⟩

/-- Replacing ", " by "," keeps the number of commas. -/
theorem count_comma_replaceChars (s : List Char) :
    (replaceChars [',', ' '] [','] 0 s).count ',' = s.count ',' := by
  induction s with
  | nil => simp [replaceChars]
  | cons c cs ih =>
    cases hp : hasPrefix (c :: cs) [',', ' '] with
    | false =>
      rw [replaceChars_keep c cs hp, List.count_cons, List.count_cons, ih]
    | true =>
      obtain ⟨r, hc, hr⟩ := hasPrefix_comma_space c cs hp
      subst hc
      subst hr
      have hk : replaceChars [',', ' '] [','] 0 (' ' :: r) =
          ' ' :: replaceChars [',', ' '] [','] 0 r :=
        replaceChars_keep ' ' r (by simp [hasPrefix])
      rw [hk] at ih
      rw [replaceChars_match]
      simp only [List.count_cons] at ih ⊢
      simpa using ih

/-- Where ", " does not occur, replacing it changes nothing. -/
theorem replaceChars_of_not_infix (s : List Char) (h : ¬ [',', ' '] <:+: s) :
    replaceChars [',', ' '] [','] 0 s = s := by
  induction s with
  | nil => simp [replaceChars]
  | cons c cs ih =>
    have hp : hasPrefix (c :: cs) [',', ' '] = false := by
      cases hq : hasPrefix (c :: cs) [',', ' '] with
      | false => rfl
      | true => exact absurd ((hasPrefix_iff _ _).1 hq).isInfix h
    rw [replaceChars_keep c cs hp, ih]
    intro hi
    exact h (List.infix_cons hi)

theorem normalizedStatus_data (state : String) :
    (normalizedStatus state).data =
      ',' :: (replaceChars [',', ' '] [','] 0 state.data ++ [',']) := by
  have h1 : (", " : String) ≠ "," := by decide
  have h2 : (", " : String).data ≠ [] := by decide
  simp [normalizedStatus, stringsReplaceAll, h1, h2]

theorem count_comma_normalizedStatus (state : String) :
    (normalizedStatus state).data.count ',' = state.data.count ',' + 2 := by
  rw [normalizedStatus_data]
  simp [List.count_cons, count_comma_replaceChars]

/-! ## serverUp -/

/-- C5. For every status string, `serverUp` is 1 exactly when the string contains
",Running," and does not contain ",Down,", and is 0 exactly when it contains
",Down," or does not contain ",Running,": a ",Down," gives 0 whatever else is
present, a ",Running," without ",Down," gives 1, and neither gives 0. -/
theorem serverUp_iff (status : String) :
    (serverUp status = 1 ↔
      (",Running,".data <:+: status.data ∧ ¬ ",Down,".data <:+: status.data)) ∧
    (serverUp status = 0 ↔
      (",Down,".data <:+: status.data ∨ ¬ ",Running,".data <:+: status.data)) := by
  rw [← stringsContains_iff, ← stringsContains_iff]
  unfold serverUp
  cases hd : stringsContains status ",Down," <;>
    cases hr : stringsContains status ",Running," <;> simp

/-! ## Status normalisation -/

/-- C6, the claim fails: the normalized status of "Running" is ",Running,", and
normalizing that again gives ",,Running,,". -/
theorem normalizedStatus_not_idempotent :
    normalizedStatus "Running" = ",Running," ∧
    normalizedStatus ",Running," = ",,Running,," ∧
    normalizedStatus (normalizedStatus "Running") ≠ normalizedStatus "Running" := by
  decide

/-- C6, amended. Normalizing never gives its argument back: for every string `n`,
normalized or not, the result is a comma, `n` with every ", " replaced by ",", and
a comma; it has exactly two more commas than `n`, so it differs from `n`; and it is
"," + n + "," when `n` contains no ", ". -/
theorem normalizedStatus_again (n : String) :
    normalizedStatus n = "," ++ stringsReplaceAll n ", " "," ++ "," ∧
    (normalizedStatus n).data.count ',' = n.data.count ',' + 2 ∧
    normalizedStatus n ≠ n ∧
    (¬ ", ".data <:+: n.data → normalizedStatus n = "," ++ n ++ ",") := by
  refine ⟨rfl, count_comma_normalizedStatus n, ?_, ?_⟩
  · intro h
    have hc := count_comma_normalizedStatus n
    rw [h] at hc
    omega
  · intro h
    apply String.ext
    rw [normalizedStatus_data, replaceChars_of_not_infix n.data h]
    simp

/-- C6, amended, at ",Running,": it contains no ", ", and normalizing it wraps it in
one more pair of commas. -/
theorem normalizedStatus_again_witness :
    ¬ ", ".data <:+: ",Running,".data ∧
    normalizedStatus ",Running," = "," ++ ",Running," ++ "," :=
  ⟨by decide, (normalizedStatus_again ",Running,").2.2.2 (by decide)⟩

/-! ## The parsers -/

/-- A loop whose body always succeeds, appending `out x` for the element `x`,
appends the blocks of all elements in list order. -/
theorem forEach_ok {α : Type} (m : MaxScale) (metricsMap : metrics) (body : α → List Call)
    (out : α → List PMetric)
    (h : ∀ x ch, createMetrics m metricsMap (body x) ch = .ok (ch ++ out x))
    (xs : List α) (ch : Chan) :
    forEach m metricsMap body xs ch = .ok (ch ++ xs.flatMap out) := by
  induction xs generalizing ch with
  | nil => simp [forEach]
  | cons x xs ih =>
    simp only [forEach, h x ch, ih, List.flatMap_cons, List.append_assoc]

/-- The two samples of one server. -/
theorem serverCalls_run (m : MaxScale) (server : Server) (ch : Chan) :
    createMetrics m ServerMetrics (serverCalls server) ch = .ok (ch ++
      [ PMetric.constMetric
          ⟨"maxctrl_server_connections", "Amount of connections to the server",
            ["server", "address"], none⟩
          ValueType.GaugeValue server.Attributes.Statistics.Connections
          [server.ID, server.Attributes.Parameters.Address],
        PMetric.constMetric
          ⟨"maxctrl_server_up", "Is the server up", ["server", "address", "status"], none⟩
          ValueType.GaugeValue (serverUp (normalizedStatus server.Attributes.State))
          [server.ID, server.Attributes.Parameters.Address,
            normalizedStatus server.Attributes.State] ]) := by
  have h1 : ServerMetrics.index "server_connections" =
      ⟨some ⟨"maxctrl_server_connections", "Amount of connections to the server",
        ["server", "address"], none⟩, ValueType.GaugeValue⟩ := by decide
  have h2 : ServerMetrics.index "server_up" =
      ⟨some ⟨"maxctrl_server_up", "Is the server up", ["server", "address", "status"], none⟩,
        ValueType.GaugeValue⟩ := by decide
  simp [serverCalls, createMetrics, createMetricForPrometheus, MustNewConstMetric,
    NewConstMetric, h1, h2]

/-- The two samples of one service. -/
theorem serviceCalls_run (m : MaxScale) (service : Service) (ch : Chan) :
    createMetrics m ServiceMetrics (serviceCalls service) ch = .ok (ch ++
      [ PMetric.constMetric
          ⟨"maxctrl_service_current_sessions", "Amount of sessions currently active",
            ["name", "router"], none⟩
          ValueType.GaugeValue service.Attributes.Connections
          [service.ID, service.Attributes.Router],
        PMetric.constMetric
          ⟨"maxctrl_service_total_sessions", "Total amount of sessions", ["name", "router"], none⟩
          ValueType.CounterValue service.Attributes.Connections
          [service.ID, service.Attributes.Router] ]) := by
  have h1 : ServiceMetrics.index "service_current_sessions" =
      ⟨some ⟨"maxctrl_service_current_sessions", "Amount of sessions currently active",
        ["name", "router"], none⟩, ValueType.GaugeValue⟩ := by decide
  have h2 : ServiceMetrics.index "service_sessions_total" =
      ⟨some ⟨"maxctrl_service_total_sessions", "Total amount of sessions", ["name", "router"],
        none⟩, ValueType.CounterValue⟩ := by decide
  simp [serviceCalls, createMetrics, createMetricForPrometheus, MustNewConstMetric,
    NewConstMetric, h1, h2]

/-- The three samples of the cluster status. -/
theorem maxscaleStatusCalls_run (m : MaxScale) (maxscaleStatus : MaxscaleStatus) (ch : Chan) :
    createMetrics m MaxscaleStatusMetrics (maxscaleStatusCalls maxscaleStatus) ch = .ok (ch ++
      [ PMetric.constMetric
          ⟨"maxctrl_status_uptime", "How long has the server been running", [], none⟩
          ValueType.GaugeValue maxscaleStatus.Data.Attributes.Uptime [],
        PMetric.constMetric
          ⟨"maxctrl_status_threads", "Number of worker threads", [], none⟩
          ValueType.GaugeValue maxscaleStatus.Data.Attributes.Parameters.Threads [],
        PMetric.constMetric
          ⟨"maxctrl_status_passive", "Has passive mode", [], none⟩
          ValueType.GaugeValue
          (if maxscaleStatus.Data.Attributes.Parameters.Passive then 1 else 0) [] ]) := by
  have h1 : MaxscaleStatusMetrics.index "status_uptime" =
      ⟨some ⟨"maxctrl_status_uptime", "How long has the server been running", [], none⟩,
        ValueType.GaugeValue⟩ := by decide
  have h2 : MaxscaleStatusMetrics.index "status_threads" =
      ⟨some ⟨"maxctrl_status_threads", "Number of worker threads", [], none⟩,
        ValueType.GaugeValue⟩ := by decide
  have h3 : MaxscaleStatusMetrics.index "status_passive" =
      ⟨some ⟨"maxctrl_status_passive", "Has passive mode", [], none⟩,
        ValueType.GaugeValue⟩ := by decide
  simp [maxscaleStatusCalls, createMetrics, createMetricForPrometheus, MustNewConstMetric,
    NewConstMetric, h1, h2, h3]

/-- The nineteen samples of one worker. -/
theorem threadStatusCalls_run (m : MaxScale) (t : Thread) (ch : Chan) :
    createMetrics m StatusMetrics (threadStatusCalls t) ch = .ok (ch ++
      [
        PMetric.constMetric ⟨"maxctrl_status_read_events", "How many read events happened", ["id"], none⟩
          ValueType.CounterValue t.Attributes.Stats.Reads [t.ID],
        PMetric.constMetric ⟨"maxctrl_status_write_events", "How many write events happened", ["id"], none⟩
          ValueType.CounterValue t.Attributes.Stats.Writes [t.ID],
        PMetric.constMetric ⟨"maxctrl_status_error_events", "How many error events happened", ["id"], none⟩
          ValueType.CounterValue t.Attributes.Stats.Errors [t.ID],
        PMetric.constMetric ⟨"maxctrl_status_hangup_events", "How many hangup events happened", ["id"], none⟩
          ValueType.CounterValue t.Attributes.Stats.Hangups [t.ID],
        PMetric.constMetric ⟨"maxctrl_status_accept_events", "How many accept events happened", ["id"], none⟩
          ValueType.CounterValue t.Attributes.Stats.Accepts [t.ID],
        PMetric.constMetric ⟨"maxctrl_status_avg_event_queue_length", "The average length of the event queue", ["id"], none⟩
          ValueType.GaugeValue t.Attributes.Stats.AvgEventQueueLength [t.ID],
        PMetric.constMetric ⟨"maxctrl_status_max_event_queue_length", "The maximum length of the event queue", ["id"], none⟩
          ValueType.GaugeValue t.Attributes.Stats.MaxEventQueueLength [t.ID],
        PMetric.constMetric ⟨"maxctrl_status_max_event_exec_time", "The maximum event execution time", ["id"], none⟩
          ValueType.GaugeValue t.Attributes.Stats.MaxExecTime [t.ID],
        PMetric.constMetric ⟨"maxctrl_status_max_event_queue_time", "The maximum event queue time", ["id"], none⟩
          ValueType.GaugeValue t.Attributes.Stats.MaxQueueTime [t.ID],
        PMetric.constMetric ⟨"maxctrl_status_current_descriptors", "How many current descriptors there are", ["id"], none⟩
          ValueType.GaugeValue t.Attributes.Stats.CurrentDescriptors [t.ID],
        PMetric.constMetric ⟨"maxctrl_status_total_descriptors", "How many total descriptors there are", ["id"], none⟩
          ValueType.CounterValue t.Attributes.Stats.TotalDescriptors [t.ID],
        PMetric.constMetric ⟨"maxctrl_status_load_last_second", "The load during the last measured second", ["id"], none⟩
          ValueType.GaugeValue t.Attributes.Stats.Load.LastSecond [t.ID],
        PMetric.constMetric ⟨"maxctrl_status_load_last_minute", "The load during the last measured minute", ["id"], none⟩
          ValueType.GaugeValue t.Attributes.Stats.Load.LastMinute [t.ID],
        PMetric.constMetric ⟨"maxctrl_status_load_last_hour", "The load during the last measured hour", ["id"], none⟩
          ValueType.GaugeValue t.Attributes.Stats.Load.LastHour [t.ID],
        PMetric.constMetric ⟨"maxctrl_status_query_classifier_cache_size", "The query classifier cache size", ["id"], none⟩
          ValueType.GaugeValue t.Attributes.Stats.QueryClassifierCache.Size [t.ID],
        PMetric.constMetric ⟨"maxctrl_status_query_classifier_cache_inserts", "The number of inserts into the query classifier cache", ["id"], none⟩
          ValueType.GaugeValue t.Attributes.Stats.QueryClassifierCache.Inserts [t.ID],
        PMetric.constMetric ⟨"maxctrl_status_query_classifier_cache_hits", "The number of hits in the query classifier cache", ["id"], none⟩
          ValueType.GaugeValue t.Attributes.Stats.QueryClassifierCache.Hits [t.ID],
        PMetric.constMetric ⟨"maxctrl_status_query_classifier_cache_misses", "The number of misses in the query classifier cache", ["id"], none⟩
          ValueType.GaugeValue t.Attributes.Stats.QueryClassifierCache.Misses [t.ID],
        PMetric.constMetric ⟨"maxctrl_status_query_classifier_cache_evictions", "The number of evictions in the query classifier cache", ["id"], none⟩
          ValueType.GaugeValue t.Attributes.Stats.QueryClassifierCache.Evictions [t.ID] ]) := by
  have h1 : StatusMetrics.index "status_read_events" =
      ⟨some ⟨"maxctrl_status_read_events", "How many read events happened", ["id"], none⟩,
        ValueType.CounterValue⟩ := by decide
  have h2 : StatusMetrics.index "status_write_events" =
      ⟨some ⟨"maxctrl_status_write_events", "How many write events happened", ["id"], none⟩,
        ValueType.CounterValue⟩ := by decide
  have h3 : StatusMetrics.index "status_error_events" =
      ⟨some ⟨"maxctrl_status_error_events", "How many error events happened", ["id"], none⟩,
        ValueType.CounterValue⟩ := by decide
  have h4 : StatusMetrics.index "status_hangup_events" =
      ⟨some ⟨"maxctrl_status_hangup_events", "How many hangup events happened", ["id"], none⟩,
        ValueType.CounterValue⟩ := by decide
  have h5 : StatusMetrics.index "status_accept_events" =
      ⟨some ⟨"maxctrl_status_accept_events", "How many accept events happened", ["id"], none⟩,
        ValueType.CounterValue⟩ := by decide
  have h6 : StatusMetrics.index "status_avg_event_queue_length" =
      ⟨some ⟨"maxctrl_status_avg_event_queue_length", "The average length of the event queue", ["id"], none⟩,
        ValueType.GaugeValue⟩ := by decide
  have h7 : StatusMetrics.index "status_max_event_queue_length" =
      ⟨some ⟨"maxctrl_status_max_event_queue_length", "The maximum length of the event queue", ["id"], none⟩,
        ValueType.GaugeValue⟩ := by decide
  have h8 : StatusMetrics.index "status_max_event_exec_time" =
      ⟨some ⟨"maxctrl_status_max_event_exec_time", "The maximum event execution time", ["id"], none⟩,
        ValueType.GaugeValue⟩ := by decide
  have h9 : StatusMetrics.index "status_max_event_queue_time" =
      ⟨some ⟨"maxctrl_status_max_event_queue_time", "The maximum event queue time", ["id"], none⟩,
        ValueType.GaugeValue⟩ := by decide
  have h10 : StatusMetrics.index "status_current_descriptors" =
      ⟨some ⟨"maxctrl_status_current_descriptors", "How many current descriptors there are", ["id"], none⟩,
        ValueType.GaugeValue⟩ := by decide
  have h11 : StatusMetrics.index "status_total_descriptors" =
      ⟨some ⟨"maxctrl_status_total_descriptors", "How many total descriptors there are", ["id"], none⟩,
        ValueType.CounterValue⟩ := by decide
  have h12 : StatusMetrics.index "status_load_last_second" =
      ⟨some ⟨"maxctrl_status_load_last_second", "The load during the last measured second", ["id"], none⟩,
        ValueType.GaugeValue⟩ := by decide
  have h13 : StatusMetrics.index "status_load_last_minute" =
      ⟨some ⟨"maxctrl_status_load_last_minute", "The load during the last measured minute", ["id"], none⟩,
        ValueType.GaugeValue⟩ := by decide
  have h14 : StatusMetrics.index "status_load_last_hour" =
      ⟨some ⟨"maxctrl_status_load_last_hour", "The load during the last measured hour", ["id"], none⟩,
        ValueType.GaugeValue⟩ := by decide
  have h15 : StatusMetrics.index "status_query_classifier_cache_size" =
      ⟨some ⟨"maxctrl_status_query_classifier_cache_size", "The query classifier cache size", ["id"], none⟩,
        ValueType.GaugeValue⟩ := by decide
  have h16 : StatusMetrics.index "status_query_classifier_cache_inserts" =
      ⟨some ⟨"maxctrl_status_query_classifier_cache_inserts", "The number of inserts into the query classifier cache", ["id"], none⟩,
        ValueType.GaugeValue⟩ := by decide
  have h17 : StatusMetrics.index "status_query_classifier_cache_hits" =
      ⟨some ⟨"maxctrl_status_query_classifier_cache_hits", "The number of hits in the query classifier cache", ["id"], none⟩,
        ValueType.GaugeValue⟩ := by decide
  have h18 : StatusMetrics.index "status_query_classifier_cache_misses" =
      ⟨some ⟨"maxctrl_status_query_classifier_cache_misses", "The number of misses in the query classifier cache", ["id"], none⟩,
        ValueType.GaugeValue⟩ := by decide
  have h19 : StatusMetrics.index "status_query_classifier_cache_evictions" =
      ⟨some ⟨"maxctrl_status_query_classifier_cache_evictions", "The number of evictions in the query classifier cache", ["id"], none⟩,
        ValueType.GaugeValue⟩ := by decide
  simp [threadStatusCalls, createMetrics, createMetricForPrometheus, MustNewConstMetric,
    NewConstMetric, h1, h2, h3, h4, h5, h6, h7, h8, h9, h10, h11, h12, h13, h14, h15, h16, h17, h18, h19]


/-- What a parser's fetch decides, for a parser built as the four are: an error is
returned as it is with the channel untouched; a record is turned into samples. -/
theorem parseServers_run (m : MaxScale) (w : World) (hm : Declared m) :
    ∃ (e : Option String) (S : List PMetric),
      (∀ ch, parseServers m w ch = .ok (e, ch ++ S)) ∧ (e ≠ none → S = []) := by
  unfold parseServers
  cases getStatistics m w "/servers" w.decodeServers with
  | error err => exact ⟨some err, [], fun ch => by simp, fun _ => rfl⟩
  | ok servers =>
    obtain ⟨S, hS⟩ : ∃ S, ∀ ch, forEach m ServerMetrics serverCalls servers.Data ch =
        .ok (ch ++ S) :=
      ⟨_, forEach_ok m ServerMetrics serverCalls _ (serverCalls_run m) servers.Data⟩
    exact ⟨none, S, fun ch => by simp only [hm.1, hS], fun h => absurd rfl h⟩

theorem parseServices_run (m : MaxScale) (w : World) (hm : Declared m) :
    ∃ (e : Option String) (S : List PMetric),
      (∀ ch, parseServices m w ch = .ok (e, ch ++ S)) ∧ (e ≠ none → S = []) := by
  unfold parseServices
  cases getStatistics m w "/services" w.decodeServices with
  | error err => exact ⟨some err, [], fun ch => by simp, fun _ => rfl⟩
  | ok services =>
    obtain ⟨S, hS⟩ : ∃ S, ∀ ch, forEach m ServiceMetrics serviceCalls services.Data ch =
        .ok (ch ++ S) :=
      ⟨_, forEach_ok m ServiceMetrics serviceCalls _ (serviceCalls_run m) services.Data⟩
    exact ⟨none, S, fun ch => by simp only [hm.2.1, hS], fun h => absurd rfl h⟩

theorem parseMaxscaleStatus_run (m : MaxScale) (w : World) (hm : Declared m) :
    ∃ (e : Option String) (S : List PMetric),
      (∀ ch, parseMaxscaleStatus m w ch = .ok (e, ch ++ S)) ∧ (e ≠ none → S = []) := by
  unfold parseMaxscaleStatus
  cases getStatistics m w "/maxscale" w.decodeMaxscaleStatus with
  | error err => exact ⟨some err, [], fun ch => by simp, fun _ => rfl⟩
  | ok maxscaleStatus =>
    obtain ⟨S, hS⟩ : ∃ S, ∀ ch, createMetrics m MaxscaleStatusMetrics
        (maxscaleStatusCalls maxscaleStatus) ch = .ok (ch ++ S) :=
      ⟨_, maxscaleStatusCalls_run m maxscaleStatus⟩
    exact ⟨none, S, fun ch => by simp only [hm.2.2.1, hS], fun h => absurd rfl h⟩

theorem parseThreadStatus_run (m : MaxScale) (w : World) (hm : Declared m) :
    ∃ (e : Option String) (S : List PMetric),
      (∀ ch, parseThreadStatus m w ch = .ok (e, ch ++ S)) ∧ (e ≠ none → S = []) := by
  unfold parseThreadStatus
  cases getStatistics m w "/maxscale/threads" w.decodeThreadStatus with
  | error err => exact ⟨some err, [], fun ch => by simp, fun _ => rfl⟩
  | ok threadStatus =>
    obtain ⟨S, hS⟩ : ∃ S, ∀ ch, forEach m StatusMetrics threadStatusCalls threadStatus.Data ch =
        .ok (ch ++ S) :=
      ⟨_, forEach_ok m StatusMetrics threadStatusCalls _ (threadStatusCalls_run m)
        threadStatus.Data⟩
    exact ⟨none, S, fun ch => by simp only [hm.2.2.2, hS], fun h => absurd rfl h⟩

/-! ## Collect -/

/-- The receiver of `createMetricForPrometheus` is not read. -/
theorem createMetrics_receiver (m1 m2 : MaxScale) (metricsMap : metrics) (cs : List Call)
    (ch : Chan) : createMetrics m1 metricsMap cs ch = createMetrics m2 metricsMap cs ch := by
  induction cs generalizing ch with
  | nil => rfl
  | cons c cs ih => simp only [createMetrics, createMetricForPrometheus, ih]

theorem forEach_receiver {α : Type} (m1 m2 : MaxScale) (metricsMap : metrics)
    (body : α → List Call) (xs : List α) (ch : Chan) :
    forEach m1 metricsMap body xs ch = forEach m2 metricsMap body xs ch := by
  induction xs generalizing ch with
  | nil => rfl
  | cons x xs ih => simp only [forEach, createMetrics_receiver m1 m2, ih]

/-- The parsers read neither the scrape counter nor the health gauge. -/
theorem parsers_after_Inc (m : MaxScale) (w : World) (ch : Chan) :
    parseServers { m with totalScrapes := m.totalScrapes.Inc } w ch = parseServers m w ch ∧
    parseServices { m with totalScrapes := m.totalScrapes.Inc } w ch = parseServices m w ch ∧
    parseMaxscaleStatus { m with totalScrapes := m.totalScrapes.Inc } w ch =
      parseMaxscaleStatus m w ch ∧
    parseThreadStatus { m with totalScrapes := m.totalScrapes.Inc } w ch =
      parseThreadStatus m w ch := by
  refine ⟨?_, ?_, ?_, ?_⟩
  · simp only [parseServers, forEach_receiver _ m]
    rfl
  · simp only [parseServices, forEach_receiver _ m]
    rfl
  · simp only [parseMaxscaleStatus, createMetrics_receiver _ m]
    rfl
  · simp only [parseThreadStatus, forEach_receiver _ m]
    rfl

/-- One collection cycle, given what the four parsers do on the exporter's maps. -/
theorem Collect_run (m : MaxScale) (w : World) (hm : Declared m) :
    ∃ (e1 e2 e3 e4 : Option String) (S1 S2 S3 S4 : List PMetric),
      (∀ ch, parseServers m w ch = .ok (e1, ch ++ S1)) ∧
      (∀ ch, parseServices m w ch = .ok (e2, ch ++ S2)) ∧
      (∀ ch, parseMaxscaleStatus m w ch = .ok (e3, ch ++ S3)) ∧
      (∀ ch, parseThreadStatus m w ch = .ok (e4, ch ++ S4)) ∧
      (e1 ≠ none → S1 = []) ∧ (e2 ≠ none → S2 = []) ∧
      (e3 ≠ none → S3 = []) ∧ (e4 ≠ none → S4 = []) ∧
      ∀ ch, ∃ r, Collect m w ch = .ok r ∧
        r.m = { m with
          totalScrapes := m.totalScrapes.Inc
          up := m.up.Set (if e1 = none ∧ e2 = none ∧ e3 = none ∧ e4 = none then 1 else 0) } ∧
        r.ch = ch ++ S1 ++ S2 ++ S3 ++ S4 ++
          [PMetric.gauge r.m.up, PMetric.counter r.m.totalScrapes] ∧
        r.log = [e1, e2, e3, e4].reduceOption := by
  obtain ⟨e1, S1, h1, z1⟩ := parseServers_run m w hm
  obtain ⟨e2, S2, h2, z2⟩ := parseServices_run m w hm
  obtain ⟨e3, S3, h3, z3⟩ := parseMaxscaleStatus_run m w hm
  obtain ⟨e4, S4, h4, z4⟩ := parseThreadStatus_run m w hm
  refine ⟨e1, e2, e3, e4, S1, S2, S3, S4, h1, h2, h3, h4, z1, z2, z3, z4, fun ch => ?_⟩
  unfold Collect
  simp only [(parsers_after_Inc m w _).1, (parsers_after_Inc m w _).2.1,
    (parsers_after_Inc m w _).2.2.1, (parsers_after_Inc m w _).2.2.2, h1, h2, h3, h4]
  cases e1 <;> cases e2 <;> cases e3 <;> cases e4 <;>
    simp [noteError, List.reduceOption, Gauge.Set]

/-- C1. For every exporter on the declared catalogs, every world and every channel,
`Collect` returns, and with `e1`..`e4` the errors the four parsers return during
it (`none` for nil), the health gauge afterwards is 1 if all four are nil and 0 if
at least one is not; it is never anything but 0 or 1; and it is that gauge that is
sent. -/
theorem Collect_up (m : MaxScale) (w : World) (ch : Chan) (hm : Declared m) :
    ∃ (e1 e2 e3 e4 : Option String) (c1 c2 c3 c4 : Chan) (r : Collected),
      parseServers m w ch = .ok (e1, c1) ∧ parseServices m w c1 = .ok (e2, c2) ∧
      parseMaxscaleStatus m w c2 = .ok (e3, c3) ∧ parseThreadStatus m w c3 = .ok (e4, c4) ∧
      Collect m w ch = .ok r ∧
      r.m.up.val = (if e1 = none ∧ e2 = none ∧ e3 = none ∧ e4 = none then 1 else 0) ∧
      (r.m.up.val = 0 ∨ r.m.up.val = 1) ∧
      PMetric.gauge r.m.up ∈ r.ch := by
  obtain ⟨e1, e2, e3, e4, S1, S2, S3, S4, h1, h2, h3, h4, -, -, -, -, hc⟩ := Collect_run m w hm
  obtain ⟨r, hr, hrm, hrch, -⟩ := hc ch
  refine ⟨e1, e2, e3, e4, _, _, _, _, r, h1 ch, h2 _, h3 _, h4 _, hr, ?_, ?_, ?_⟩
  · rw [hrm]
    rfl
  · rw [hrm]
    by_cases h : e1 = none ∧ e2 = none ∧ e3 = none ∧ e4 = none
    · right
      simp [Gauge.Set, h]
    · left
      simp [Gauge.Set, h]
  · rw [hrch]
    simp

/-- C1 at the world where the cluster-status resource refuses the connection and the
other three answer: the health gauge is 0 after `Collect`. -/
theorem Collect_up_witness :
    Declared exampleExporter ∧
    ∃ r, Collect exampleExporter worldClusterDown [] = .ok r ∧ r.m.up.val = 0 := by
  have hm : Declared exampleExporter := ⟨rfl, rfl, rfl, rfl⟩
  refine ⟨hm, ?_⟩
  obtain ⟨e1, e2, e3, e4, c1, c2, c3, c4, r, -, -, h3, -, hr, hup, -, -⟩ :=
    Collect_up exampleExporter worldClusterDown [] hm
  refine ⟨r, hr, ?_⟩
  have h3' : parseMaxscaleStatus exampleExporter worldClusterDown c2 =
      .ok (some "error while getting /maxscale: connection refused", c2) := rfl
  rw [h3'] at h3
  injection h3 with h3
  injection h3 with h3 _
  rw [hup, ← h3]
  simp

/-- C2. For every exporter on the declared catalogs, every world and every channel,
`Collect` returns (no error, no panic), and what it has sent is, in this order:
the samples of the server parser, of the service parser, of the cluster-status
parser and of the per-worker parser, then the health gauge and the scrape counter.
Here `Si` is what parser `i` sends and `ei` the error it returns; a parser that
returns an error has sent nothing, and the parsers after it still contribute. -/
theorem Collect_samples (m : MaxScale) (w : World) (ch : Chan) (hm : Declared m) :
    ∃ (e1 e2 e3 e4 : Option String) (S1 S2 S3 S4 : List PMetric) (r : Collected),
      parseServers m w [] = .ok (e1, S1) ∧ parseServices m w [] = .ok (e2, S2) ∧
      parseMaxscaleStatus m w [] = .ok (e3, S3) ∧ parseThreadStatus m w [] = .ok (e4, S4) ∧
      (e1 = none ∨ S1 = []) ∧ (e2 = none ∨ S2 = []) ∧
      (e3 = none ∨ S3 = []) ∧ (e4 = none ∨ S4 = []) ∧
      Collect m w ch = .ok r ∧
      r.ch = ch ++ S1 ++ S2 ++ S3 ++ S4 ++
        [PMetric.gauge r.m.up, PMetric.counter r.m.totalScrapes] := by
  obtain ⟨e1, e2, e3, e4, S1, S2, S3, S4, h1, h2, h3, h4, z1, z2, z3, z4, hc⟩ :=
    Collect_run m w hm
  obtain ⟨r, hr, -, hrch, -⟩ := hc ch
  refine ⟨e1, e2, e3, e4, S1, S2, S3, S4, r, by simpa using h1 [], by simpa using h2 [],
    by simpa using h3 [], by simpa using h4 [], ?_, ?_, ?_, ?_, hr, hrch⟩
  · by_cases h : e1 = none
    · exact Or.inl h
    · exact Or.inr (z1 h)
  · by_cases h : e2 = none
    · exact Or.inl h
    · exact Or.inr (z2 h)
  · by_cases h : e3 = none
    · exact Or.inl h
    · exact Or.inr (z3 h)
  · by_cases h : e4 = none
    · exact Or.inl h
    · exact Or.inr (z4 h)

/-- C2 at the world where every connection is refused: all four parsers fail, and
`Collect` still sends the health gauge, at 0, and the scrape counter, at 1, and
nothing else. -/
theorem Collect_samples_witness :
    Declared exampleExporter ∧
    ∃ r, Collect exampleExporter worldAllRefused [] = .ok r ∧
      r.ch =
        [ PMetric.gauge
            ⟨⟨"maxctrl_up", "Was the last scrape of MaxScale successful?", [], none⟩, 0⟩,
          PMetric.counter
            ⟨⟨"maxctrl_exporter_total_scrapes", "Current total MaxScale scrapes", [], none⟩,
              1⟩ ] := by
  have hm : Declared exampleExporter := ⟨rfl, rfl, rfl, rfl⟩
  refine ⟨hm, ?_⟩
  obtain ⟨e1, e2, e3, e4, S1, S2, S3, S4, r, -, -, -, -, -, -, -, -, hr, -⟩ :=
    Collect_samples exampleExporter worldAllRefused [] hm
  refine ⟨r, hr, ?_⟩
  have hr' : Collect exampleExporter worldAllRefused [] = .ok
      { m := { exampleExporter with
                 totalScrapes := exampleExporter.totalScrapes.Inc
                 up := exampleExporter.up.Set 0 },
        ch := [ PMetric.gauge (exampleExporter.up.Set 0),
                PMetric.counter exampleExporter.totalScrapes.Inc ],
        log := [ "error while getting /servers: connection refused",
                 "error while getting /services: connection refused",
                 "error while getting /maxscale: connection refused",
                 "error while getting /maxscale/threads: connection refused" ] } := rfl
  rw [hr'] at hr
  injection hr with hr
  rw [← hr]
  rfl

/-- The exporter after a cycle is still on the declared catalogs. -/
theorem Declared_after (m : MaxScale) (c : Counter) (g : Gauge) (hm : Declared m) :
    Declared { m with totalScrapes := c, up := g } := hm

/-- What `NewExporter` returns is on the declared catalogs, with the health gauge
and the scrape counter new. -/
theorem NewExporter_ok (host : Host) (url username password caCertificate : String)
    (m : MaxScale) (h : NewExporter host url username password caCertificate = .ok m) :
    Declared m ∧
    m.up = NewGauge Namespace "up" "Was the last scrape of MaxScale successful?" ∧
    m.totalScrapes =
      NewCounter Namespace "exporter_total_scrapes" "Current total MaxScale scrapes" := by
  unfold NewExporter at h
  simp only at h
  split at h
  · exact absurd h (by simp)
  · injection h with h
    subst h
    exact ⟨⟨rfl, rfl, rfl, rfl⟩, rfl, rfl⟩

/-- Successive scrapes of an exporter on the declared catalogs all return, and the
scrape with index `k` (from zero) ends by sending the counter at `k + 1` above
its value before the first scrape. -/
theorem scrapes_run (ws : List World) (m : MaxScale) (hm : Declared m) :
    ∃ (m' : MaxScale) (outs : List Chan), scrapes m ws = .ok (m', outs) ∧
      outs.length = ws.length ∧
      ∀ k, k < ws.length → ∃ pre, outs[k]? =
        some (pre ++ [PMetric.counter ⟨m.totalScrapes.desc, m.totalScrapes.val + (k + 1)⟩]) := by
  induction ws generalizing m with
  | nil => exact ⟨m, [], rfl, rfl, fun k hk => absurd hk (by simp)⟩
  | cons w ws ih =>
    obtain ⟨e1, e2, e3, e4, S1, S2, S3, S4, -, -, -, -, -, -, -, -, hc⟩ := Collect_run m w hm
    obtain ⟨r, hr, hrm, hrch, -⟩ := hc []
    have hd : Declared r.m := by
      rw [hrm]
      exact Declared_after m _ _ hm
    obtain ⟨m', outs, hs, hlen, hk⟩ := ih r.m hd
    refine ⟨m', r.ch :: outs, ?_, by simp [hlen], ?_⟩
    · simp only [scrapes, hr, hs]
    · intro k hlt
      cases k with
      | zero =>
        refine ⟨[] ++ S1 ++ S2 ++ S3 ++ S4 ++ [PMetric.gauge r.m.up], ?_⟩
        rw [hrch, hrm]
        simp [Counter.Inc]
      | succ k =>
        obtain ⟨pre, hpre⟩ := hk k (by simpa using hlt)
        refine ⟨pre, ?_⟩
        rw [List.getElem?_cons_succ, hpre, hrm]
        simp only [Counter.Inc]
        congr 5
        omega

/-- C3. Every `Collect` on the declared catalogs returns with the scrape counter one
higher than before, whatever the world (so whatever the four parsers return), and
the counter is the last thing it sends. Hence, on an exporter just made by
`NewExporter`, the scrape number `k + 1` sends the counter at `k + 1`. -/
theorem Collect_totalScrapes :
    (∀ (m : MaxScale) (w : World) (ch : Chan), Declared m →
      ∃ r, Collect m w ch = .ok r ∧
        r.m.totalScrapes.val = m.totalScrapes.val + 1 ∧
        r.ch.getLast? = some (PMetric.counter r.m.totalScrapes)) ∧
    (∀ (host : Host) (url username password caCertificate : String) (m : MaxScale)
        (ws : List World),
      NewExporter host url username password caCertificate = .ok m →
      ∃ (m' : MaxScale) (outs : List Chan), scrapes m ws = .ok (m', outs) ∧
        outs.length = ws.length ∧
        ∀ k, k < ws.length → ∃ pre, outs[k]? = some (pre ++
          [PMetric.counter
            ⟨⟨"maxctrl_exporter_total_scrapes", "Current total MaxScale scrapes", [], none⟩,
              k + 1⟩])) := by
  constructor
  · intro m w ch hm
    obtain ⟨e1, e2, e3, e4, S1, S2, S3, S4, -, -, -, -, -, -, -, -, hc⟩ := Collect_run m w hm
    obtain ⟨r, hr, hrm, hrch, -⟩ := hc ch
    refine ⟨r, hr, ?_, ?_⟩
    · rw [hrm]
      rfl
    · rw [hrch]
      simp
  · intro host url username password caCertificate m ws h
    obtain ⟨hm, -, hc⟩ := NewExporter_ok host url username password caCertificate m h
    obtain ⟨m', outs, hs, hlen, hk⟩ := scrapes_run ws m hm
    refine ⟨m', outs, hs, hlen, fun k hlt => ?_⟩
    obtain ⟨pre, hpre⟩ := hk k hlt
    refine ⟨pre, ?_⟩
    rw [hpre, hc]
    simp only [NewCounter]
    have hd : NewDesc (BuildFQName Namespace "" "exporter_total_scrapes")
        "Current total MaxScale scrapes" [] =
        ⟨"maxctrl_exporter_total_scrapes", "Current total MaxScale scrapes", [], none⟩ := by
      decide
    rw [hd]
    simp

/-- C3 run: the exporter made by `NewExporter` on the example host is the example
exporter; one `Collect` on it leaves the counter at 1; and of three scrapes, one
healthy, one with every connection refused, one with the cluster status down, the
third ends by sending the counter at 3. -/
theorem Collect_totalScrapes_witness :
    NewExporter exampleHost "http://127.0.0.1:8989" "admin" "mariadb" "" = .ok exampleExporter ∧
    Declared exampleExporter ∧
    (∃ r, Collect exampleExporter worldAllRefused [] = .ok r ∧ r.m.totalScrapes.val = 1) ∧
    (∃ m' outs pre,
      scrapes exampleExporter [worldHealthy, worldAllRefused, worldClusterDown] = .ok (m', outs) ∧
      outs[2]? = some (pre ++
        [PMetric.counter
          ⟨⟨"maxctrl_exporter_total_scrapes", "Current total MaxScale scrapes", [], none⟩,
            3⟩])) := by
  have hn : NewExporter exampleHost "http://127.0.0.1:8989" "admin" "mariadb" "" =
      .ok exampleExporter := rfl
  have hm : Declared exampleExporter := ⟨rfl, rfl, rfl, rfl⟩
  refine ⟨hn, hm, ?_, ?_⟩
  · obtain ⟨r, hr, hv, -⟩ := Collect_totalScrapes.1 exampleExporter worldAllRefused [] hm
    exact ⟨r, hr, hv⟩
  · obtain ⟨m', outs, hs, -, hk⟩ := Collect_totalScrapes.2 exampleHost "http://127.0.0.1:8989"
      "admin" "mariadb" "" exampleExporter [worldHealthy, worldAllRefused, worldClusterDown] hn
    obtain ⟨pre, hpre⟩ := hk 2 (by decide)
    exact ⟨m', outs, pre, hs, hpre⟩

/-- C4. For each of the four parsers, on the declared catalogs, in every world and on
every channel: when its `getStatistics` fails with `err`, the parser returns `err`
and leaves the channel as it was (it sends nothing); when `getStatistics` succeeds,
the parser returns nil. So an error is returned exactly when the fetch failed, it
is the fetch's error, and no parser both sends a sample and returns an error. -/
theorem parsers_error (m : MaxScale) (w : World) (ch : Chan) (hm : Declared m) :
    (match getStatistics m w "/servers" w.decodeServers with
      | .error err => parseServers m w ch = .ok (some err, ch)
      | .ok _ => ∃ ch', parseServers m w ch = .ok (none, ch')) ∧
    (match getStatistics m w "/services" w.decodeServices with
      | .error err => parseServices m w ch = .ok (some err, ch)
      | .ok _ => ∃ ch', parseServices m w ch = .ok (none, ch')) ∧
    (match getStatistics m w "/maxscale" w.decodeMaxscaleStatus with
      | .error err => parseMaxscaleStatus m w ch = .ok (some err, ch)
      | .ok _ => ∃ ch', parseMaxscaleStatus m w ch = .ok (none, ch')) ∧
    (match getStatistics m w "/maxscale/threads" w.decodeThreadStatus with
      | .error err => parseThreadStatus m w ch = .ok (some err, ch)
      | .ok _ => ∃ ch', parseThreadStatus m w ch = .ok (none, ch')) := by
  refine ⟨?_, ?_, ?_, ?_⟩
  · unfold parseServers
    cases getStatistics m w "/servers" w.decodeServers with
    | error err => rfl
    | ok servers =>
      obtain ⟨S, hS⟩ : ∃ S, ∀ ch, forEach m ServerMetrics serverCalls servers.Data ch =
          .ok (ch ++ S) :=
        ⟨_, forEach_ok m ServerMetrics serverCalls _ (serverCalls_run m) servers.Data⟩
      exact ⟨ch ++ S, by simp only [hm.1, hS]⟩
  · unfold parseServices
    cases getStatistics m w "/services" w.decodeServices with
    | error err => rfl
    | ok services =>
      obtain ⟨S, hS⟩ : ∃ S, ∀ ch, forEach m ServiceMetrics serviceCalls services.Data ch =
          .ok (ch ++ S) :=
        ⟨_, forEach_ok m ServiceMetrics serviceCalls _ (serviceCalls_run m) services.Data⟩
      exact ⟨ch ++ S, by simp only [hm.2.1, hS]⟩
  · unfold parseMaxscaleStatus
    cases getStatistics m w "/maxscale" w.decodeMaxscaleStatus with
    | error err => rfl
    | ok maxscaleStatus =>
      obtain ⟨S, hS⟩ : ∃ S, ∀ ch, createMetrics m MaxscaleStatusMetrics
          (maxscaleStatusCalls maxscaleStatus) ch = .ok (ch ++ S) :=
        ⟨_, maxscaleStatusCalls_run m maxscaleStatus⟩
      exact ⟨ch ++ S, by simp only [hm.2.2.1, hS]⟩
  · unfold parseThreadStatus
    cases getStatistics m w "/maxscale/threads" w.decodeThreadStatus with
    | error err => rfl
    | ok threadStatus =>
      obtain ⟨S, hS⟩ : ∃ S, ∀ ch, forEach m StatusMetrics threadStatusCalls
          threadStatus.Data ch = .ok (ch ++ S) :=
        ⟨_, forEach_ok m StatusMetrics threadStatusCalls _ (threadStatusCalls_run m)
          threadStatus.Data⟩
      exact ⟨ch ++ S, by simp only [hm.2.2.2, hS]⟩

/-- C4 at the world where the cluster-status resource refuses the connection: the
cluster-status parser returns the fetch's error and sends nothing, the server
parser returns nil. -/
theorem parsers_error_witness :
    Declared exampleExporter ∧
    parseMaxscaleStatus exampleExporter worldClusterDown [] =
      .ok (some "error while getting /maxscale: connection refused", []) ∧
    ∃ ch', parseServers exampleExporter worldClusterDown [] = .ok (none, ch') :=
  ⟨⟨rfl, rfl, rfl, rfl⟩,
    (parsers_error exampleExporter worldClusterDown [] ⟨rfl, rfl, rfl, rfl⟩).2.2.1,
    (parsers_error exampleExporter worldClusterDown [] ⟨rfl, rfl, rfl, rfl⟩).1⟩

/-! ## The server parser -/

/-- On a fetched server list the server parser sends two samples per server. -/
theorem parseServers_ok (m : MaxScale) (w : World) (ch : Chan) (servers : Servers)
    (hm : Declared m) (hf : getStatistics m w "/servers" w.decodeServers = .ok servers) :
    parseServers m w ch = .ok (none, ch ++ servers.Data.flatMap (fun server =>
      [ PMetric.constMetric
          ⟨"maxctrl_server_connections", "Amount of connections to the server",
            ["server", "address"], none⟩
          ValueType.GaugeValue server.Attributes.Statistics.Connections
          [server.ID, server.Attributes.Parameters.Address],
        PMetric.constMetric
          ⟨"maxctrl_server_up", "Is the server up", ["server", "address", "status"], none⟩
          ValueType.GaugeValue (serverUp (normalizedStatus server.Attributes.State))
          [server.ID, server.Attributes.Parameters.Address,
            normalizedStatus server.Attributes.State] ])) := by
  unfold parseServers
  rw [hf]
  simp only [hm.1, forEach_ok m ServerMetrics serverCalls _ (serverCalls_run m)]

/-- C7. On every successfully fetched server list the server parser returns nil and
sends, for each server in list order, a `server_connections` gauge sample with the
connection count as value and labels (id, address), then a `server_up` gauge
sample with labels (id, address, N) and value `serverUp N`, where N is "," + the
state with every ", " replaced by "," + ","; the two descriptors are the ones
`ServerMetrics` declares under `server_connections` and `server_up`. For the
states "Master, Running" and "Down", N is ",Master,Running," and ",Down," and
`serverUp N` is 1 and 0. -/
theorem parseServers_samples :
    (∀ (m : MaxScale) (w : World) (ch : Chan) (servers : Servers), Declared m →
      getStatistics m w "/servers" w.decodeServers = .ok servers →
      parseServers m w ch = .ok (none, ch ++ servers.Data.flatMap (fun server =>
        [ PMetric.constMetric
            ⟨"maxctrl_server_connections", "Amount of connections to the server",
              ["server", "address"], none⟩
            ValueType.GaugeValue server.Attributes.Statistics.Connections
            [server.ID, server.Attributes.Parameters.Address],
          PMetric.constMetric
            ⟨"maxctrl_server_up", "Is the server up", ["server", "address", "status"], none⟩
            ValueType.GaugeValue
            (serverUp ("," ++ stringsReplaceAll server.Attributes.State ", " "," ++ ","))
            [server.ID, server.Attributes.Parameters.Address,
              "," ++ stringsReplaceAll server.Attributes.State ", " "," ++ ","] ]))) ∧
    ServerMetrics.index "server_connections" =
      ⟨some ⟨"maxctrl_server_connections", "Amount of connections to the server",
        ["server", "address"], none⟩, ValueType.GaugeValue⟩ ∧
    ServerMetrics.index "server_up" =
      ⟨some ⟨"maxctrl_server_up", "Is the server up", ["server", "address", "status"], none⟩,
        ValueType.GaugeValue⟩ ∧
    "," ++ stringsReplaceAll "Master, Running" ", " "," ++ "," = ",Master,Running," ∧
    serverUp ",Master,Running," = 1 ∧
    "," ++ stringsReplaceAll "Down" ", " "," ++ "," = ",Down," ∧
    serverUp ",Down," = 0 := by
  refine ⟨fun m w ch servers hm hf => parseServers_ok m w ch servers hm hf, ?_, ?_, ?_, ?_, ?_, ?_⟩
    <;> decide

/-- C7 run: fetching the server s1 at 10.0.0.1 with 5 connections in state
"Master, Running" sends `server_connections{s1, 10.0.0.1} = 5` and
`server_up{s1, 10.0.0.1, ",Master,Running,"} = 1`; in state "Down" the second
sample is `server_up{s1, 10.0.0.1, ",Down,"} = 0`. -/
theorem parseServers_samples_witness :
    Declared exampleExporter ∧
    getStatistics exampleExporter worldHealthy "/servers" worldHealthy.decodeServers =
      .ok { Data := [exampleServer "s1" "10.0.0.1" "Master, Running" 5] } ∧
    parseServers exampleExporter worldHealthy [] = .ok (none,
      [ PMetric.constMetric
          ⟨"maxctrl_server_connections", "Amount of connections to the server",
            ["server", "address"], none⟩
          ValueType.GaugeValue 5 ["s1", "10.0.0.1"],
        PMetric.constMetric
          ⟨"maxctrl_server_up", "Is the server up", ["server", "address", "status"], none⟩
          ValueType.GaugeValue 1 ["s1", "10.0.0.1", ",Master,Running,"] ]) ∧
    parseServers exampleExporter worldServerDown [] = .ok (none,
      [ PMetric.constMetric
          ⟨"maxctrl_server_connections", "Amount of connections to the server",
            ["server", "address"], none⟩
          ValueType.GaugeValue 0 ["s1", "10.0.0.1"],
        PMetric.constMetric
          ⟨"maxctrl_server_up", "Is the server up", ["server", "address", "status"], none⟩
          ValueType.GaugeValue 0 ["s1", "10.0.0.1", ",Down,"] ]) :=
  ⟨⟨rfl, rfl, rfl, rfl⟩, rfl,
    parseServers_samples.1 exampleExporter worldHealthy [] _ ⟨rfl, rfl, rfl, rfl⟩ rfl,
    parseServers_samples.1 exampleExporter worldServerDown []
      { Data := [exampleServer "s1" "10.0.0.1" "Down" 0] } ⟨rfl, rfl, rfl, rfl⟩ rfl⟩

/-! ## The per-worker parser -/

/-- On a fetched worker list the per-worker parser sends nineteen samples per
worker. -/
theorem parseThreadStatus_ok (m : MaxScale) (w : World) (ch : Chan) (threadStatus : ThreadStatus)
    (hm : Declared m)
    (hf : getStatistics m w "/maxscale/threads" w.decodeThreadStatus = .ok threadStatus) :
    parseThreadStatus m w ch = .ok (none, ch ++ threadStatus.Data.flatMap (fun t =>
      [
        PMetric.constMetric ⟨"maxctrl_status_read_events", "How many read events happened", ["id"], none⟩
          ValueType.CounterValue t.Attributes.Stats.Reads [t.ID],
        PMetric.constMetric ⟨"maxctrl_status_write_events", "How many write events happened", ["id"], none⟩
          ValueType.CounterValue t.Attributes.Stats.Writes [t.ID],
        PMetric.constMetric ⟨"maxctrl_status_error_events", "How many error events happened", ["id"], none⟩
          ValueType.CounterValue t.Attributes.Stats.Errors [t.ID],
        PMetric.constMetric ⟨"maxctrl_status_hangup_events", "How many hangup events happened", ["id"], none⟩
          ValueType.CounterValue t.Attributes.Stats.Hangups [t.ID],
        PMetric.constMetric ⟨"maxctrl_status_accept_events", "How many accept events happened", ["id"], none⟩
          ValueType.CounterValue t.Attributes.Stats.Accepts [t.ID],
        PMetric.constMetric ⟨"maxctrl_status_avg_event_queue_length", "The average length of the event queue", ["id"], none⟩
          ValueType.GaugeValue t.Attributes.Stats.AvgEventQueueLength [t.ID],
        PMetric.constMetric ⟨"maxctrl_status_max_event_queue_length", "The maximum length of the event queue", ["id"], none⟩
          ValueType.GaugeValue t.Attributes.Stats.MaxEventQueueLength [t.ID],
        PMetric.constMetric ⟨"maxctrl_status_max_event_exec_time", "The maximum event execution time", ["id"], none⟩
          ValueType.GaugeValue t.Attributes.Stats.MaxExecTime [t.ID],
        PMetric.constMetric ⟨"maxctrl_status_max_event_queue_time", "The maximum event queue time", ["id"], none⟩
          ValueType.GaugeValue t.Attributes.Stats.MaxQueueTime [t.ID],
        PMetric.constMetric ⟨"maxctrl_status_current_descriptors", "How many current descriptors there are", ["id"], none⟩
          ValueType.GaugeValue t.Attributes.Stats.CurrentDescriptors [t.ID],
        PMetric.constMetric ⟨"maxctrl_status_total_descriptors", "How many total descriptors there are", ["id"], none⟩
          ValueType.CounterValue t.Attributes.Stats.TotalDescriptors [t.ID],
        PMetric.constMetric ⟨"maxctrl_status_load_last_second", "The load during the last measured second", ["id"], none⟩
          ValueType.GaugeValue t.Attributes.Stats.Load.LastSecond [t.ID],
        PMetric.constMetric ⟨"maxctrl_status_load_last_minute", "The load during the last measured minute", ["id"], none⟩
          ValueType.GaugeValue t.Attributes.Stats.Load.LastMinute [t.ID],
        PMetric.constMetric ⟨"maxctrl_status_load_last_hour", "The load during the last measured hour", ["id"], none⟩
          ValueType.GaugeValue t.Attributes.Stats.Load.LastHour [t.ID],
        PMetric.constMetric ⟨"maxctrl_status_query_classifier_cache_size", "The query classifier cache size", ["id"], none⟩
          ValueType.GaugeValue t.Attributes.Stats.QueryClassifierCache.Size [t.ID],
        PMetric.constMetric ⟨"maxctrl_status_query_classifier_cache_inserts", "The number of inserts into the query classifier cache", ["id"], none⟩
          ValueType.GaugeValue t.Attributes.Stats.QueryClassifierCache.Inserts [t.ID],
        PMetric.constMetric ⟨"maxctrl_status_query_classifier_cache_hits", "The number of hits in the query classifier cache", ["id"], none⟩
          ValueType.GaugeValue t.Attributes.Stats.QueryClassifierCache.Hits [t.ID],
        PMetric.constMetric ⟨"maxctrl_status_query_classifier_cache_misses", "The number of misses in the query classifier cache", ["id"], none⟩
          ValueType.GaugeValue t.Attributes.Stats.QueryClassifierCache.Misses [t.ID],
        PMetric.constMetric ⟨"maxctrl_status_query_classifier_cache_evictions", "The number of evictions in the query classifier cache", ["id"], none⟩
          ValueType.GaugeValue t.Attributes.Stats.QueryClassifierCache.Evictions [t.ID] ])) := by
  unfold parseThreadStatus
  rw [hf]
  simp only [hm.2.2.2, forEach_ok m StatusMetrics threadStatusCalls _ (threadStatusCalls_run m)]

theorem length_flatMap_const {α β : Type} (f : α → List β) (n : Nat)
    (h : ∀ x, (f x).length = n) (xs : List α) : (xs.flatMap f).length = n * xs.length := by
  induction xs with
  | nil => simp
  | cons x xs ih =>
    rw [List.flatMap_cons, List.length_append, h x, ih, List.length_cons]
    ring

/-- C8. On every successfully fetched per-worker status list the per-worker parser
returns nil and sends, for each worker in list order, the block of nineteen
samples written out below: one per statistic, with the decoded statistic as value
and the worker's identifier as only label value. That is 19 samples for each
worker record; the nineteen descriptors of a block are pairwise distinct; and
each sample's descriptor and value kind are those `StatusMetrics` declares under
one of its keys. -/
theorem parseThreadStatus_samples (m : MaxScale) (w : World) (ch : Chan)
    (threadStatus : ThreadStatus) (hm : Declared m)
    (hf : getStatistics m w "/maxscale/threads" w.decodeThreadStatus = .ok threadStatus) :
    ∃ block : Thread → List PMetric,
      block = (fun t =>
        [
          PMetric.constMetric ⟨"maxctrl_status_read_events", "How many read events happened", ["id"], none⟩
            ValueType.CounterValue t.Attributes.Stats.Reads [t.ID],
          PMetric.constMetric ⟨"maxctrl_status_write_events", "How many write events happened", ["id"], none⟩
            ValueType.CounterValue t.Attributes.Stats.Writes [t.ID],
          PMetric.constMetric ⟨"maxctrl_status_error_events", "How many error events happened", ["id"], none⟩
            ValueType.CounterValue t.Attributes.Stats.Errors [t.ID],
          PMetric.constMetric ⟨"maxctrl_status_hangup_events", "How many hangup events happened", ["id"], none⟩
            ValueType.CounterValue t.Attributes.Stats.Hangups [t.ID],
          PMetric.constMetric ⟨"maxctrl_status_accept_events", "How many accept events happened", ["id"], none⟩
            ValueType.CounterValue t.Attributes.Stats.Accepts [t.ID],
          PMetric.constMetric ⟨"maxctrl_status_avg_event_queue_length", "The average length of the event queue", ["id"], none⟩
            ValueType.GaugeValue t.Attributes.Stats.AvgEventQueueLength [t.ID],
          PMetric.constMetric ⟨"maxctrl_status_max_event_queue_length", "The maximum length of the event queue", ["id"], none⟩
            ValueType.GaugeValue t.Attributes.Stats.MaxEventQueueLength [t.ID],
          PMetric.constMetric ⟨"maxctrl_status_max_event_exec_time", "The maximum event execution time", ["id"], none⟩
            ValueType.GaugeValue t.Attributes.Stats.MaxExecTime [t.ID],
          PMetric.constMetric ⟨"maxctrl_status_max_event_queue_time", "The maximum event queue time", ["id"], none⟩
            ValueType.GaugeValue t.Attributes.Stats.MaxQueueTime [t.ID],
          PMetric.constMetric ⟨"maxctrl_status_current_descriptors", "How many current descriptors there are", ["id"], none⟩
            ValueType.GaugeValue t.Attributes.Stats.CurrentDescriptors [t.ID],
          PMetric.constMetric ⟨"maxctrl_status_total_descriptors", "How many total descriptors there are", ["id"], none⟩
            ValueType.CounterValue t.Attributes.Stats.TotalDescriptors [t.ID],
          PMetric.constMetric ⟨"maxctrl_status_load_last_second", "The load during the last measured second", ["id"], none⟩
            ValueType.GaugeValue t.Attributes.Stats.Load.LastSecond [t.ID],
          PMetric.constMetric ⟨"maxctrl_status_load_last_minute", "The load during the last measured minute", ["id"], none⟩
            ValueType.GaugeValue t.Attributes.Stats.Load.LastMinute [t.ID],
          PMetric.constMetric ⟨"maxctrl_status_load_last_hour", "The load during the last measured hour", ["id"], none⟩
            ValueType.GaugeValue t.Attributes.Stats.Load.LastHour [t.ID],
          PMetric.constMetric ⟨"maxctrl_status_query_classifier_cache_size", "The query classifier cache size", ["id"], none⟩
            ValueType.GaugeValue t.Attributes.Stats.QueryClassifierCache.Size [t.ID],
          PMetric.constMetric ⟨"maxctrl_status_query_classifier_cache_inserts", "The number of inserts into the query classifier cache", ["id"], none⟩
            ValueType.GaugeValue t.Attributes.Stats.QueryClassifierCache.Inserts [t.ID],
          PMetric.constMetric ⟨"maxctrl_status_query_classifier_cache_hits", "The number of hits in the query classifier cache", ["id"], none⟩
            ValueType.GaugeValue t.Attributes.Stats.QueryClassifierCache.Hits [t.ID],
          PMetric.constMetric ⟨"maxctrl_status_query_classifier_cache_misses", "The number of misses in the query classifier cache", ["id"], none⟩
            ValueType.GaugeValue t.Attributes.Stats.QueryClassifierCache.Misses [t.ID],
          PMetric.constMetric ⟨"maxctrl_status_query_classifier_cache_evictions", "The number of evictions in the query classifier cache", ["id"], none⟩
            ValueType.GaugeValue t.Attributes.Stats.QueryClassifierCache.Evictions [t.ID] ]) ∧
      parseThreadStatus m w ch = .ok (none, ch ++ threadStatus.Data.flatMap block) ∧
      (threadStatus.Data.flatMap block).length = 19 * threadStatus.Data.length ∧
      (∀ t, ((block t).map PMetric.Desc).Nodup) ∧
      (∀ t, ∀ s ∈ block t, ∃ key d vt v,
        s = PMetric.constMetric d vt v [t.ID] ∧
        StatusMetrics.lookup key = some ⟨some d, vt⟩) := by
  refine ⟨_, rfl, parseThreadStatus_ok m w ch threadStatus hm hf, ?_, ?_, ?_⟩
  · apply length_flatMap_const
    intro t
    rfl
  · intro t
    simp only [List.map, PMetric.Desc]
    decide
  · intro t s hs
    simp only [List.mem_cons, List.mem_singleton, List.not_mem_nil, or_false] at hs
    rcases hs with rfl | rfl | rfl | rfl | rfl | rfl | rfl | rfl | rfl | rfl | rfl | rfl | rfl | rfl | rfl | rfl | rfl | rfl | rfl
    · exact ⟨"status_read_events", _, _, _, rfl, by decide⟩
    · exact ⟨"status_write_events", _, _, _, rfl, by decide⟩
    · exact ⟨"status_error_events", _, _, _, rfl, by decide⟩
    · exact ⟨"status_hangup_events", _, _, _, rfl, by decide⟩
    · exact ⟨"status_accept_events", _, _, _, rfl, by decide⟩
    · exact ⟨"status_avg_event_queue_length", _, _, _, rfl, by decide⟩
    · exact ⟨"status_max_event_queue_length", _, _, _, rfl, by decide⟩
    · exact ⟨"status_max_event_exec_time", _, _, _, rfl, by decide⟩
    · exact ⟨"status_max_event_queue_time", _, _, _, rfl, by decide⟩
    · exact ⟨"status_current_descriptors", _, _, _, rfl, by decide⟩
    · exact ⟨"status_total_descriptors", _, _, _, rfl, by decide⟩
    · exact ⟨"status_load_last_second", _, _, _, rfl, by decide⟩
    · exact ⟨"status_load_last_minute", _, _, _, rfl, by decide⟩
    · exact ⟨"status_load_last_hour", _, _, _, rfl, by decide⟩
    · exact ⟨"status_query_classifier_cache_size", _, _, _, rfl, by decide⟩
    · exact ⟨"status_query_classifier_cache_inserts", _, _, _, rfl, by decide⟩
    · exact ⟨"status_query_classifier_cache_hits", _, _, _, rfl, by decide⟩
    · exact ⟨"status_query_classifier_cache_misses", _, _, _, rfl, by decide⟩
    · exact ⟨"status_query_classifier_cache_evictions", _, _, _, rfl, by decide⟩

/-- C8 run: two worker records give 38 samples, the first under
`maxctrl_status_read_events` for worker "0", the last under
`maxctrl_status_query_classifier_cache_evictions` for worker "1". -/
theorem parseThreadStatus_samples_witness :
    Declared exampleExporter ∧
    getStatistics exampleExporter worldHealthy "/maxscale/threads"
        worldHealthy.decodeThreadStatus =
      .ok { Data := [exampleThread "0" 0, exampleThread "1" 100] } ∧
    ∃ out, parseThreadStatus exampleExporter worldHealthy [] = .ok (none, out) ∧
      out.length = 38 ∧
      out.head? = some (PMetric.constMetric
        ⟨"maxctrl_status_read_events", "How many read events happened", ["id"], none⟩
        ValueType.CounterValue 1 ["0"]) ∧
      out.getLast? = some (PMetric.constMetric
        ⟨"maxctrl_status_query_classifier_cache_evictions",
          "The number of evictions in the query classifier cache", ["id"], none⟩
        ValueType.GaugeValue 119 ["1"]) := by
  refine ⟨⟨rfl, rfl, rfl, rfl⟩, rfl, ?_⟩
  obtain ⟨block, hb, hp, hl, -, -⟩ := parseThreadStatus_samples exampleExporter worldHealthy []
    { Data := [exampleThread "0" 0, exampleThread "1" 100] } ⟨rfl, rfl, rfl, rfl⟩ rfl
  refine ⟨_, hp, hl, ?_, ?_⟩
  · rw [hb]
    rfl
  · rw [hb]
    rfl


/-! ## The registry lookups -/

/-- C9. The keys each parser passes to `createMetricForPrometheus` are, for every
record: the 2 keys `server_connections`, `server_up` (server parser), the 2 keys
`service_current_sessions`, `service_sessions_total` (service parser), the 3 keys
`status_uptime`, `status_threads`, `status_passive` (cluster-status parser) and the
19 keys listed below (per-worker parser); and every one of them is a key of the
catalog the parser indexes (`ServerMetrics`, `ServiceMetrics`,
`MaxscaleStatusMetrics`, `StatusMetrics`), stored with a non-nil descriptor. -/
theorem parser_keys_declared :
    (∀ server : Server,
      (serverCalls server).map Call.metricKey = ["server_connections", "server_up"] ∧
      (serverCalls server).all (fun c =>
        (ServerMetrics.lookup c.metricKey).any (fun metric => metric.Desc.isSome)) = true) ∧
    (∀ service : Service,
      (serviceCalls service).map Call.metricKey =
        ["service_current_sessions", "service_sessions_total"] ∧
      (serviceCalls service).all (fun c =>
        (ServiceMetrics.lookup c.metricKey).any (fun metric => metric.Desc.isSome)) = true) ∧
    (∀ maxscaleStatus : MaxscaleStatus,
      (maxscaleStatusCalls maxscaleStatus).map Call.metricKey =
        ["status_uptime", "status_threads", "status_passive"] ∧
      (maxscaleStatusCalls maxscaleStatus).all (fun c =>
        (MaxscaleStatusMetrics.lookup c.metricKey).any (fun metric => metric.Desc.isSome)) =
          true) ∧
    (∀ threadStatus : Thread,
      (threadStatusCalls threadStatus).map Call.metricKey =
        [
          "status_read_events", "status_write_events", "status_error_events",
          "status_hangup_events", "status_accept_events", "status_avg_event_queue_length",
          "status_max_event_queue_length", "status_max_event_exec_time",
          "status_max_event_queue_time", "status_current_descriptors",
          "status_total_descriptors", "status_load_last_second",
          "status_load_last_minute", "status_load_last_hour",
          "status_query_classifier_cache_size", "status_query_classifier_cache_inserts",
          "status_query_classifier_cache_hits", "status_query_classifier_cache_misses",
          "status_query_classifier_cache_evictions" ] ∧
      ((threadStatusCalls threadStatus).map Call.metricKey).length = 19 ∧
      ((threadStatusCalls threadStatus).map Call.metricKey).Nodup ∧
      (threadStatusCalls threadStatus).all (fun c =>
        (StatusMetrics.lookup c.metricKey).any (fun metric => metric.Desc.isSome)) = true) := by
  refine ⟨fun server => ⟨rfl, rfl⟩, fun service => ⟨rfl, rfl⟩,
    fun maxscaleStatus => ⟨rfl, rfl⟩, fun threadStatus => ⟨rfl, rfl, ?_, rfl⟩⟩
  simp only [threadStatusCalls, List.map]
  decide

theorem lookup_eq_none (metricsMap : metrics) (metricKey : String)
    (h : metricKey ∉ metricsMap.map Prod.fst) : metricsMap.lookup metricKey = none := by
  induction metricsMap with
  | nil => rfl
  | cons kv rest ih =>
    obtain ⟨k, v⟩ := kv
    simp only [List.map_cons, List.mem_cons, not_or] at h
    have hk : (metricKey == k) = false := by simpa using h.1
    simp only [List.lookup, hk]
    exact ih h.2

/-- C10. For every catalog and every key that is not one of its keys: indexing the
catalog gives the zero `Metric`, whose descriptor is nil, and
`createMetricForPrometheus` panics on that nil descriptor; it returns no channel,
so no sample is sent for the key, whatever the value, the label values and the
channel. -/
theorem createMetricForPrometheus_undeclared (m : MaxScale) (metricsMap : metrics)
    (metricKey : String) (value : Int) (ch : Chan) (labelValues : List String)
    (h : metricKey ∉ metricsMap.map Prod.fst) :
    metricsMap.lookup metricKey = none ∧
    (metricsMap.index metricKey).Desc = none ∧
    createMetricForPrometheus m metricsMap metricKey value ch labelValues =
      .error Panic.nilPointerDereference := by
  have hl := lookup_eq_none metricsMap metricKey h
  refine ⟨hl, ?_, ?_⟩
  · simp [metrics.index, hl]
  · simp [createMetricForPrometheus, metrics.index, hl, MustNewConstMetric]

/-- C10 at `ServerMetrics` and the key "server_down", which it does not declare. -/
theorem createMetricForPrometheus_undeclared_witness :
    "server_down" ∉ ServerMetrics.map Prod.fst ∧
    createMetricForPrometheus exampleExporter ServerMetrics "server_down" 1 [] ["s1", "10.0.0.1"] =
      .error Panic.nilPointerDereference :=
  ⟨by decide,
    (createMetricForPrometheus_undeclared exampleExporter ServerMetrics "server_down" 1 []
      ["s1", "10.0.0.1"] (by decide)).2.2⟩


/-! ## What a call that returns has sent -/

theorem mem_of_lookup_eq_some (metricsMap : metrics) (metricKey : String) (metric : Metric)
    (h : metricsMap.lookup metricKey = some metric) : (metricKey, metric) ∈ metricsMap := by
  induction metricsMap with
  | nil => simp [List.lookup] at h
  | cons kv rest ih =>
    obtain ⟨k, v⟩ := kv
    simp only [List.lookup] at h
    cases hk : (metricKey == k) with
    | true =>
      rw [hk] at h
      injection h with h
      have hk' : metricKey = k := by simpa using hk
      rw [hk', h]
      exact List.mem_cons_self _ _
    | false =>
      rw [hk] at h
      exact List.mem_cons_of_mem _ (ih h)

/-- A call of `createMetricForPrometheus` that returns has sent one constant metric:
under the descriptor and value kind stored in the map under the key, with the
value and the label values of the call, as many label values as the descriptor
has label names. -/
theorem createMetricForPrometheus_sent (m : MaxScale) (metricsMap : metrics)
    (metricKey : String) (value : Int) (ch ch' : Chan) (labelValues : List String)
    (h : createMetricForPrometheus m metricsMap metricKey value ch labelValues = .ok ch') :
    ∃ d vt, ch' = ch ++ [PMetric.constMetric d vt value labelValues] ∧
      labelValues.length = d.variableLabels.length ∧
      (metricKey, (⟨some d, vt⟩ : Metric)) ∈ metricsMap := by
  unfold createMetricForPrometheus metrics.index at h
  cases hl : metricsMap.lookup metricKey with
  | none => simp [hl, MustNewConstMetric] at h
  | some metric =>
    obtain ⟨desc, vt⟩ := metric
    cases desc with
    | none => simp [hl, MustNewConstMetric] at h
    | some d =>
      simp only [hl, MustNewConstMetric, NewConstMetric] at h
      cases he : d.err with
      | some e => simp [he] at h
      | none =>
        by_cases hlen : labelValues.length = d.variableLabels.length
        · by_cases hv : vt = ValueType.zero
          · simp [he, hlen, hv] at h
          · simp only [he, hlen, hv, ne_eq, not_true_eq_false, if_false] at h
            injection h with h
            exact ⟨d, vt, h.symm, hlen, mem_of_lookup_eq_some _ _ _ hl⟩
        · simp [he, hlen] at h

/-- A sequence of calls that returns has appended constant metrics only, each with
as many label values as its descriptor has label names, under a descriptor of
the map. -/
theorem createMetrics_sent (m : MaxScale) (metricsMap : metrics) (cs : List Call)
    (ch ch' : Chan) (h : createMetrics m metricsMap cs ch = .ok ch') :
    ∃ S, ch' = ch ++ S ∧ ∀ s ∈ S, ∃ d vt v l, s = PMetric.constMetric d vt v l ∧
      l.length = d.variableLabels.length ∧
      some d ∈ metricsMap.map (fun kv => kv.2.Desc) := by
  induction cs generalizing ch with
  | nil =>
    simp only [createMetrics] at h
    injection h with h
    exact ⟨[], by simp [h], by simp⟩
  | cons c cs ih =>
    simp only [createMetrics] at h
    cases h1 : createMetricForPrometheus m metricsMap c.metricKey c.value ch c.labelValues with
    | error p => simp [h1] at h
    | ok ch1 =>
      rw [h1] at h
      obtain ⟨d, vt, hch1, hlen, hmem⟩ := createMetricForPrometheus_sent _ _ _ _ _ _ _ h1
      obtain ⟨S, hS, hall⟩ := ih ch1 h
      refine ⟨PMetric.constMetric d vt c.value c.labelValues :: S, ?_, ?_⟩
      · rw [hS, hch1]
        simp
      · intro s hs
        rcases List.mem_cons.1 hs with rfl | hs
        · exact ⟨d, vt, _, _, rfl, hlen, List.mem_map.2 ⟨_, hmem, rfl⟩⟩
        · exact hall s hs

theorem forEach_sent {α : Type} (m : MaxScale) (metricsMap : metrics) (body : α → List Call)
    (xs : List α) (ch ch' : Chan) (h : forEach m metricsMap body xs ch = .ok ch') :
    ∃ S, ch' = ch ++ S ∧ ∀ s ∈ S, ∃ d vt v l, s = PMetric.constMetric d vt v l ∧
      l.length = d.variableLabels.length ∧
      some d ∈ metricsMap.map (fun kv => kv.2.Desc) := by
  induction xs generalizing ch with
  | nil =>
    simp only [forEach] at h
    injection h with h
    exact ⟨[], by simp [h], by simp⟩
  | cons x xs ih =>
    simp only [forEach] at h
    cases h1 : createMetrics m metricsMap (body x) ch with
    | error p => simp [h1] at h
    | ok ch1 =>
      rw [h1] at h
      obtain ⟨S1, hS1, hall1⟩ := createMetrics_sent _ _ _ _ _ h1
      obtain ⟨S, hS, hall⟩ := ih ch1 h
      refine ⟨S1 ++ S, ?_, ?_⟩
      · rw [hS, hS1]
        simp
      · intro s hs
        rcases List.mem_append.1 hs with hs | hs
        · exact hall1 s hs
        · exact hall s hs

theorem parseServers_sent (m : MaxScale) (w : World) (ch ch' : Chan) (e : Option String)
    (h : parseServers m w ch = .ok (e, ch')) :
    ∃ S, ch' = ch ++ S ∧ ∀ s ∈ S, ∃ d vt v l, s = PMetric.constMetric d vt v l ∧
      l.length = d.variableLabels.length ∧
      some d ∈ m.serverMetrics.map (fun kv => kv.2.Desc) := by
  unfold parseServers at h
  cases hf : getStatistics m w "/servers" w.decodeServers with
  | error err =>
    simp only [hf] at h
    injection h with h
    injection h with _ h
    exact ⟨[], by simp [h], by simp⟩
  | ok servers =>
    simp only [hf] at h
    cases h1 : forEach m m.serverMetrics serverCalls servers.Data ch with
    | error p => simp [h1] at h
    | ok ch1 =>
      simp only [h1] at h
      injection h with h
      injection h with _ h
      rw [← h]
      exact forEach_sent _ _ _ _ _ _ h1

theorem parseServices_sent (m : MaxScale) (w : World) (ch ch' : Chan) (e : Option String)
    (h : parseServices m w ch = .ok (e, ch')) :
    ∃ S, ch' = ch ++ S ∧ ∀ s ∈ S, ∃ d vt v l, s = PMetric.constMetric d vt v l ∧
      l.length = d.variableLabels.length ∧
      some d ∈ m.serviceMetrics.map (fun kv => kv.2.Desc) := by
  unfold parseServices at h
  cases hf : getStatistics m w "/services" w.decodeServices with
  | error err =>
    simp only [hf] at h
    injection h with h
    injection h with _ h
    exact ⟨[], by simp [h], by simp⟩
  | ok services =>
    simp only [hf] at h
    cases h1 : forEach m m.serviceMetrics serviceCalls services.Data ch with
    | error p => simp [h1] at h
    | ok ch1 =>
      simp only [h1] at h
      injection h with h
      injection h with _ h
      rw [← h]
      exact forEach_sent _ _ _ _ _ _ h1

theorem parseMaxscaleStatus_sent (m : MaxScale) (w : World) (ch ch' : Chan) (e : Option String)
    (h : parseMaxscaleStatus m w ch = .ok (e, ch')) :
    ∃ S, ch' = ch ++ S ∧ ∀ s ∈ S, ∃ d vt v l, s = PMetric.constMetric d vt v l ∧
      l.length = d.variableLabels.length ∧
      some d ∈ m.maxscaleStatusMetrics.map (fun kv => kv.2.Desc) := by
  unfold parseMaxscaleStatus at h
  cases hf : getStatistics m w "/maxscale" w.decodeMaxscaleStatus with
  | error err =>
    simp only [hf] at h
    injection h with h
    injection h with _ h
    exact ⟨[], by simp [h], by simp⟩
  | ok maxscaleStatus =>
    simp only [hf] at h
    cases h1 : createMetrics m m.maxscaleStatusMetrics (maxscaleStatusCalls maxscaleStatus) ch with
    | error p => simp [h1] at h
    | ok ch1 =>
      simp only [h1] at h
      injection h with h
      injection h with _ h
      rw [← h]
      exact createMetrics_sent _ _ _ _ _ h1

theorem parseThreadStatus_sent (m : MaxScale) (w : World) (ch ch' : Chan) (e : Option String)
    (h : parseThreadStatus m w ch = .ok (e, ch')) :
    ∃ S, ch' = ch ++ S ∧ ∀ s ∈ S, ∃ d vt v l, s = PMetric.constMetric d vt v l ∧
      l.length = d.variableLabels.length ∧
      some d ∈ m.statusMetrics.map (fun kv => kv.2.Desc) := by
  unfold parseThreadStatus at h
  cases hf : getStatistics m w "/maxscale/threads" w.decodeThreadStatus with
  | error err =>
    simp only [hf] at h
    injection h with h
    injection h with _ h
    exact ⟨[], by simp [h], by simp⟩
  | ok threadStatus =>
    simp only [hf] at h
    cases h1 : forEach m m.statusMetrics threadStatusCalls threadStatus.Data ch with
    | error p => simp [h1] at h
    | ok ch1 =>
      simp only [h1] at h
      injection h with h
      injection h with _ h
      rw [← h]
      exact forEach_sent _ _ _ _ _ _ h1

/-- On the declared catalogs every parser returns, and what it has sent are constant
metrics with as many label values as label names. -/
theorem parsers_arity (m : MaxScale) (w : World) (ch : Chan) (hm : Declared m) :
    (∃ e S, parseServers m w ch = .ok (e, ch ++ S) ∧
      ∀ s ∈ S, ∃ d vt v l, s = PMetric.constMetric d vt v l ∧
        l.length = d.variableLabels.length) ∧
    (∃ e S, parseServices m w ch = .ok (e, ch ++ S) ∧
      ∀ s ∈ S, ∃ d vt v l, s = PMetric.constMetric d vt v l ∧
        l.length = d.variableLabels.length) ∧
    (∃ e S, parseMaxscaleStatus m w ch = .ok (e, ch ++ S) ∧
      ∀ s ∈ S, ∃ d vt v l, s = PMetric.constMetric d vt v l ∧
        l.length = d.variableLabels.length) ∧
    (∃ e S, parseThreadStatus m w ch = .ok (e, ch ++ S) ∧
      ∀ s ∈ S, ∃ d vt v l, s = PMetric.constMetric d vt v l ∧
        l.length = d.variableLabels.length) := by
  obtain ⟨e1, S1, h1, -⟩ := parseServers_run m w hm
  obtain ⟨e2, S2, h2, -⟩ := parseServices_run m w hm
  obtain ⟨e3, S3, h3, -⟩ := parseMaxscaleStatus_run m w hm
  obtain ⟨e4, S4, h4, -⟩ := parseThreadStatus_run m w hm
  refine ⟨⟨e1, S1, h1 ch, ?_⟩, ⟨e2, S2, h2 ch, ?_⟩, ⟨e3, S3, h3 ch, ?_⟩, ⟨e4, S4, h4 ch, ?_⟩⟩
  · obtain ⟨S, hS, hall⟩ := parseServers_sent m w [] _ e1 (h1 [])
    rw [List.nil_append, List.nil_append] at hS
    intro s hs
    obtain ⟨d, vt, v, l, hs', hlen, -⟩ := hall s (hS ▸ hs)
    exact ⟨d, vt, v, l, hs', hlen⟩
  · obtain ⟨S, hS, hall⟩ := parseServices_sent m w [] _ e2 (h2 [])
    rw [List.nil_append, List.nil_append] at hS
    intro s hs
    obtain ⟨d, vt, v, l, hs', hlen, -⟩ := hall s (hS ▸ hs)
    exact ⟨d, vt, v, l, hs', hlen⟩
  · obtain ⟨S, hS, hall⟩ := parseMaxscaleStatus_sent m w [] _ e3 (h3 [])
    rw [List.nil_append, List.nil_append] at hS
    intro s hs
    obtain ⟨d, vt, v, l, hs', hlen, -⟩ := hall s (hS ▸ hs)
    exact ⟨d, vt, v, l, hs', hlen⟩
  · obtain ⟨S, hS, hall⟩ := parseThreadStatus_sent m w [] _ e4 (h4 [])
    rw [List.nil_append, List.nil_append] at hS
    intro s hs
    obtain ⟨d, vt, v, l, hs', hlen, -⟩ := hall s (hS ▸ hs)
    exact ⟨d, vt, v, l, hs', hlen⟩

/-! ## Label arity -/

/-- C11. On the declared catalogs, in every world and on every channel, each of the
four parsers returns (building a sample never panics), and every sample it has
sent carries as many label values as its descriptor has label names. Call by
call, the label names of the descriptor and the label values passed are, in
order: (server, address) with (id, address) for `server_connections`; (server,
address, status) with (id, address, normalized status) for `server_up`; (name,
router) with (id, router) for both service metrics; none with none for the three
cluster-status metrics; (id) with (worker id) for each of the nineteen
per-worker metrics. -/
theorem label_arity (m : MaxScale) (w : World) (ch : Chan) (hm : Declared m) :
    ((∃ e S, parseServers m w ch = .ok (e, ch ++ S) ∧
        ∀ s ∈ S, ∃ d vt v l, s = PMetric.constMetric d vt v l ∧
          l.length = d.variableLabels.length) ∧
      (∃ e S, parseServices m w ch = .ok (e, ch ++ S) ∧
        ∀ s ∈ S, ∃ d vt v l, s = PMetric.constMetric d vt v l ∧
          l.length = d.variableLabels.length) ∧
      (∃ e S, parseMaxscaleStatus m w ch = .ok (e, ch ++ S) ∧
        ∀ s ∈ S, ∃ d vt v l, s = PMetric.constMetric d vt v l ∧
          l.length = d.variableLabels.length) ∧
      (∃ e S, parseThreadStatus m w ch = .ok (e, ch ++ S) ∧
        ∀ s ∈ S, ∃ d vt v l, s = PMetric.constMetric d vt v l ∧
          l.length = d.variableLabels.length)) ∧
    (∀ server : Server,
      (serverCalls server).map (fun c =>
        (c.metricKey, (ServerMetrics.index c.metricKey).Desc.map Desc.variableLabels,
          c.labelValues)) =
        [ ("server_connections", some ["server", "address"],
            [server.ID, server.Attributes.Parameters.Address]),
          ("server_up", some ["server", "address", "status"],
            [server.ID, server.Attributes.Parameters.Address,
              normalizedStatus server.Attributes.State]) ]) ∧
    (∀ service : Service,
      (serviceCalls service).map (fun c =>
        (c.metricKey, (ServiceMetrics.index c.metricKey).Desc.map Desc.variableLabels,
          c.labelValues)) =
        [ ("service_current_sessions", some ["name", "router"],
            [service.ID, service.Attributes.Router]),
          ("service_sessions_total", some ["name", "router"],
            [service.ID, service.Attributes.Router]) ]) ∧
    (∀ maxscaleStatus : MaxscaleStatus,
      (maxscaleStatusCalls maxscaleStatus).map (fun c =>
        (c.metricKey, (MaxscaleStatusMetrics.index c.metricKey).Desc.map Desc.variableLabels,
          c.labelValues)) =
        [ ("status_uptime", some [], []), ("status_threads", some [], []),
          ("status_passive", some [], []) ]) ∧
    (∀ threadStatus : Thread,
      (threadStatusCalls threadStatus).map (fun c =>
        ((StatusMetrics.index c.metricKey).Desc.map Desc.variableLabels, c.labelValues)) =
        List.replicate 19 (some ["id"], [threadStatus.ID])) :=
  ⟨parsers_arity m w ch hm, fun _ => rfl, fun _ => rfl, fun _ => rfl, fun _ => rfl⟩

/-- C11 run on the healthy world: the server parser returns and its two samples
have 2 and 3 label values under descriptors with 2 and 3 label names. -/
theorem label_arity_witness :
    Declared exampleExporter ∧
    ∃ e S, parseServers exampleExporter worldHealthy [] = .ok (e, S) ∧ S.length = 2 ∧
      ∀ s ∈ S, ∃ d vt v l, s = PMetric.constMetric d vt v l ∧
        l.length = d.variableLabels.length := by
  refine ⟨⟨rfl, rfl, rfl, rfl⟩, ?_⟩
  obtain ⟨⟨e, S, hp, hall⟩, -⟩ :=
    (label_arity exampleExporter worldHealthy [] ⟨rfl, rfl, rfl, rfl⟩).1
  have hp' : parseServers exampleExporter worldHealthy [] = .ok (none,
      [ PMetric.constMetric
          ⟨"maxctrl_server_connections", "Amount of connections to the server",
            ["server", "address"], none⟩
          ValueType.GaugeValue 5 ["s1", "10.0.0.1"],
        PMetric.constMetric
          ⟨"maxctrl_server_up", "Is the server up", ["server", "address", "status"], none⟩
          ValueType.GaugeValue 1 ["s1", "10.0.0.1", ",Master,Running,"] ]) := rfl
  rw [hp'] at hp
  injection hp with hp
  injection hp with _ hS
  rw [List.nil_append] at hS
  refine ⟨e, S, ?_, ?_, hall⟩
  · rw [hp', ← hS]
    congr 2
  · rw [← hS]
    rfl

/-! ## getStatistics on a response that is not a success -/

/-- The result next to the trace is the result of `getStatistics`. -/
theorem getStatisticsTraced_fst {α : Type} (m : MaxScale) (w : World) (path : String)
    (decode : String → Except String α) :
    (getStatisticsTraced m w path decode).1 = getStatistics m w path decode := by
  unfold getStatisticsTraced getStatistics
  cases w.newRequestErr (m.url ++ "/v1" ++ path) with
  | some err => rfl
  | none =>
    simp only
    cases w.clientDo m.transport
        (Request.SetBasicAuth { Method := "GET", URL := m.url ++ "/v1" ++ path, BasicAuth := none }
          m.username m.password) with
    | error err => rfl
    | ok resp =>
      simp only
      split <;> rfl

/-- C12. Whenever `client.Do` answers the request of `getStatistics` with a response
whose status code is not in 200..299, whatever the record type and its decoder:
`getStatistics` returns the error "the MaxScale statistic request failed with a
status: " followed by the response's status text; and all it has done to the
outside is the one `client.Do` of that request: no body was decoded, no second
request was sent. -/
theorem getStatistics_status {α : Type} (m : MaxScale) (w : World) (path : String)
    (decode : String → Except String α) (resp : Response)
    (hreq : w.newRequestErr (m.url ++ "/v1" ++ path) = none)
    (hdo : w.clientDo m.transport
      { Method := "GET", URL := m.url ++ "/v1" ++ path,
        BasicAuth := some (m.username, m.password) } = .ok resp)
    (hs : ¬ (200 ≤ resp.StatusCode ∧ resp.StatusCode ≤ 299)) :
    getStatistics m w path decode =
      .error ("the MaxScale statistic request failed with a status: " ++ resp.Status) ∧
    getStatisticsTraced m w path decode =
      (getStatistics m w path decode,
        [ NetEvent.clientDo
            { Method := "GET", URL := m.url ++ "/v1" ++ path,
              BasicAuth := some (m.username, m.password) } ]) := by
  have hne : resp.StatusCode ≠ 200 := by
    intro h
    exact hs (by omega)
  have h1 : getStatistics m w path decode =
      .error ("the MaxScale statistic request failed with a status: " ++ resp.Status) := by
    simp [getStatistics, hreq, Request.SetBasicAuth, hdo, hne]
  refine ⟨h1, ?_⟩
  rw [h1]
  simp [getStatisticsTraced, hreq, Request.SetBasicAuth, hdo, hne]

/-- C12 at the world that answers `503 Service Unavailable`: the fetch of the server
list fails with the status text and the only thing done is the one request. -/
theorem getStatistics_status_witness :
    getStatisticsTraced exampleExporter worldUnavailable "/servers"
        worldUnavailable.decodeServers =
      (.error "the MaxScale statistic request failed with a status: 503 Service Unavailable",
        [ NetEvent.clientDo
            { Method := "GET", URL := "http://127.0.0.1:8989/v1/servers",
              BasicAuth := some ("admin", "mariadb") } ]) := by
  have h := getStatistics_status exampleExporter worldUnavailable "/servers"
    worldUnavailable.decodeServers
    { StatusCode := 503, Status := "503 Service Unavailable", Body := "try later" }
    rfl rfl (by decide)
  rw [h.2, h.1]
  rfl

/-! ## Configuration from the environment -/

theorem length_eq_zero_iff (s : String) : s.length = 0 ↔ s = "" := by
  constructor
  · intro h
    apply String.ext
    exact List.length_eq_zero.1 h
  · intro h
    rw [h]
    rfl

/-- C13. For every environment, variable name and fallback, `GetEnvVar` gives the
variable's value when the variable is set to a non-empty value, and the fallback
when it is unset or set to the empty string; so do the four lookups of `main`
(MAXSCALE_URL, MAXSCALE_USERNAME, MAXSCALE_PASSWORD, MAXSCALE_EXPORTER_PORT) with
their defaults. The two tests of `GetEnvVar` pass: a variable set to "Test Value"
reads as "Test Value", a variable set to "" reads as the fallback. -/
theorem GetEnvVar_value_or_fallback (environ : Environ) (name fallback : String) :
    GetEnvVar environ name fallback =
      (match environ name with
        | some value => if value = "" then fallback else value
        | none => fallback) ∧
    (mainConfig environ).maxScaleUrl =
      (match environ "MAXSCALE_URL" with
        | some value => if value = "" then "http://127.0.0.1:8989" else value
        | none => "http://127.0.0.1:8989") ∧
    (mainConfig environ).maxScaleUsername =
      (match environ "MAXSCALE_USERNAME" with
        | some value => if value = "" then "admin" else value
        | none => "admin") ∧
    (mainConfig environ).maxScalePassword =
      (match environ "MAXSCALE_PASSWORD" with
        | some value => if value = "" then "mariadb" else value
        | none => "mariadb") ∧
    (mainConfig environ).maxScaleExporterPort =
      (match environ "MAXSCALE_EXPORTER_PORT" with
        | some value => if value = "" then "8080" else value
        | none => "8080") ∧
    GetEnvVar (Setenv environ name "Test Value") name "fallback value" = "Test Value" ∧
    GetEnvVar (Setenv environ name "") name "fallback value" = "fallback value" := by
  refine ⟨?_, ?_, ?_, ?_, ?_, ?_, ?_⟩
  · unfold GetEnvVar Getenv
    cases environ name with
    | none => rfl
    | some value => simp only [length_eq_zero_iff]
  · unfold mainConfig Getenv
    cases environ "MAXSCALE_URL" with
    | none => rfl
    | some value => simp only [length_eq_zero_iff]
  · unfold mainConfig Getenv
    cases environ "MAXSCALE_USERNAME" with
    | none => rfl
    | some value => simp only [length_eq_zero_iff]
  · unfold mainConfig Getenv
    cases environ "MAXSCALE_PASSWORD" with
    | none => rfl
    | some value => simp only [length_eq_zero_iff]
  · unfold mainConfig Getenv
    cases environ "MAXSCALE_EXPORTER_PORT" with
    | none => rfl
    | some value => simp only [length_eq_zero_iff]
  · simp [GetEnvVar, Getenv, Setenv]
    decide
  · simp [GetEnvVar, Getenv, Setenv]

/-! ## Tokens of a normalized status -/

/-- Replacing ", " by "," passes over a stretch without a comma unchanged. -/
theorem replaceChars_append_of_no_comma (t r : List Char) (ht : ',' ∉ t) :
    replaceChars [',', ' '] [','] 0 (t ++ r) = t ++ replaceChars [',', ' '] [','] 0 r := by
  induction t with
  | nil => rfl
  | cons c t ih =>
    have hc : c ≠ ',' := fun h => ht (by simp [h])
    have ht' : ',' ∉ t := fun h => ht (List.mem_cons_of_mem _ h)
    have hp : hasPrefix (c :: (t ++ r)) [',', ' '] = false := by
      simp [hasPrefix, hc]
    rw [List.cons_append, replaceChars_keep c (t ++ r) hp, ih ht']
    rfl

/-- On tokens without a comma, joining with ", " and then replacing ", " by "," is
joining with ",". -/
theorem replaceChars_stringsJoin (tokens : List String) (hc : ∀ t ∈ tokens, ',' ∉ t.data) :
    replaceChars [',', ' '] [','] 0 (stringsJoin tokens ", ").data =
      (stringsJoin tokens ",").data := by
  induction tokens with
  | nil => rfl
  | cons a rest ih =>
    have ha : ',' ∉ a.data := hc a (List.mem_cons_self _ _)
    cases rest with
    | nil =>
      have h := replaceChars_append_of_no_comma a.data [] ha
      simpa [stringsJoin, replaceChars] using h
    | cons b rest =>
      have ih' := ih (fun t ht => hc t (List.mem_cons_of_mem _ ht))
      have hd : (stringsJoin (a :: b :: rest) ", ").data =
          a.data ++ (',' :: ' ' :: (stringsJoin (b :: rest) ", ").data) := by
        simp [stringsJoin, String.data_append]
      have hd' : (stringsJoin (a :: b :: rest) ",").data =
          a.data ++ (',' :: (stringsJoin (b :: rest) ",").data) := by
        simp [stringsJoin, String.data_append]
      rw [hd, hd', replaceChars_append_of_no_comma _ _ ha, replaceChars_match, ih']

/-- The normalized status as blocks: a comma before every token, and one at the end. -/
theorem comma_stringsJoin_comma (tokens : List String) (hne : tokens ≠ []) :
    ',' :: ((stringsJoin tokens ",").data ++ [',']) =
      (tokens.map (fun t => ',' :: t.data)).flatten ++ [','] := by
  induction tokens with
  | nil => exact absurd rfl hne
  | cons a rest ih =>
    cases rest with
    | nil => simp [stringsJoin]
    | cons b rest =>
      have ih' := ih (by simp)
      have hd' : (stringsJoin (a :: b :: rest) ",").data =
          a.data ++ (',' :: (stringsJoin (b :: rest) ",").data) := by
        simp [stringsJoin, String.data_append]
      have hG : ((a :: b :: rest).map (fun t => ',' :: t.data)).flatten ++ [','] =
          ',' :: (a.data ++ (((b :: rest).map (fun t => ',' :: t.data)).flatten ++ [','])) := by
        simp
      rw [hd', hG, ← ih']
      simp

/-- A comma-free stretch followed by a comma is a prefix of another such exactly
when the stretches are equal. -/
theorem prefix_comma_iff (T t r : List Char) (hT : ',' ∉ T) (ht : ',' ∉ t) :
    (T ++ [',']) <+: (t ++ ',' :: r) ↔ T = t := by
  induction T generalizing t with
  | nil =>
    cases t with
    | nil => simp
    | cons b t =>
      have hb : ',' ≠ b := fun h => ht (by rw [h]; exact List.mem_cons_self _ _)
      simp [hb]
  | cons a T ih =>
    have ha : a ≠ ',' := fun h => hT (by simp [h])
    have hT' : ',' ∉ T := fun h => hT (List.mem_cons_of_mem _ h)
    cases t with
    | nil => simp [ha]
    | cons b t =>
      have ht' : ',' ∉ t := fun h => ht (List.mem_cons_of_mem _ h)
      simp only [List.cons_append, List.cons_prefix_cons, ih t hT' ht', List.cons.injEq]

/-- A pattern that starts with a comma does not start inside a comma-free stretch. -/
theorem infix_append_of_no_comma (P t r : List Char) (ht : ',' ∉ t) :
    (',' :: P) <:+: (t ++ r) ↔ (',' :: P) <:+: r := by
  induction t with
  | nil => simp
  | cons b t ih =>
    have hb : ',' ≠ b := fun h => ht (by rw [h]; exact List.mem_cons_self _ _)
    have ht' : ',' ∉ t := fun h => ht (List.mem_cons_of_mem _ h)
    rw [List.cons_append, List.infix_cons_iff, ih ht']
    simp [hb]

/-- In a string of comma-led comma-free tokens closed by a comma, ",T," occurs
exactly when T is one of the tokens. -/
theorem infix_blocks_iff (ts : List (List Char)) (T : List Char) (hT : ',' ∉ T)
    (hts : ∀ t ∈ ts, ',' ∉ t) :
    (',' :: (T ++ [','])) <:+: ((ts.map (fun t => ',' :: t)).flatten ++ [',']) ↔ T ∈ ts := by
  induction ts with
  | nil =>
    constructor
    · intro h
      have := h.length_le
      simp at this
    · intro h
      simp at h
  | cons t ts ih =>
    have ht : ',' ∉ t := hts t (List.mem_cons_self _ _)
    have ih' := ih (fun x hx => hts x (List.mem_cons_of_mem _ hx))
    obtain ⟨r, hr⟩ : ∃ r, (ts.map (fun t => ',' :: t)).flatten ++ [','] = ',' :: r := by
      cases ts with
      | nil => exact ⟨[], rfl⟩
      | cons u us => exact ⟨_, rfl⟩
    have hG : ((t :: ts).map (fun t => ',' :: t)).flatten ++ [','] =
        ',' :: (t ++ ((ts.map (fun t => ',' :: t)).flatten ++ [','])) := by
      simp
    rw [hG, List.infix_cons_iff, List.cons_prefix_cons, infix_append_of_no_comma _ _ _ ht, ih',
      hr, prefix_comma_iff T t r hT ht, List.mem_cons]
    simp

/-- C14. For every non-empty list of tokens none of which contains a comma, and
every token T without a comma: the normalized status of the tokens joined by ", "
is "," + the tokens joined by "," + ","; and it contains ",T," exactly when T is
one of the tokens, wherever in the list. -/
theorem normalizedStatus_tokens (tokens : List String) (T : String) (hne : tokens ≠ [])
    (hc : ∀ t ∈ tokens, ',' ∉ t.data) (hT : ',' ∉ T.data) :
    normalizedStatus (stringsJoin tokens ", ") = "," ++ stringsJoin tokens "," ++ "," ∧
    (stringsContains (normalizedStatus (stringsJoin tokens ", ")) ("," ++ T ++ ",") = true ↔
      T ∈ tokens) := by
  have hd : (normalizedStatus (stringsJoin tokens ", ")).data =
      ',' :: ((stringsJoin tokens ",").data ++ [',']) := by
    rw [normalizedStatus_data, replaceChars_stringsJoin tokens hc]
  refine ⟨?_, ?_⟩
  · apply String.ext
    rw [hd]
    simp [String.data_append]
  · rw [stringsContains_iff, hd, comma_stringsJoin_comma tokens hne]
    have hP : ("," ++ T ++ ",").data = ',' :: (T.data ++ [',']) := by
      simp [String.data_append]
    have hm : tokens.map (fun t => ',' :: t.data) =
        (tokens.map String.data).map (fun t => ',' :: t) := by
      simp
    rw [hP, hm, infix_blocks_iff (tokens.map String.data) T.data hT
      (fun t ht => by
        obtain ⟨s, hs, rfl⟩ := List.mem_map.1 ht
        exact hc s hs)]
    constructor
    · intro h
      obtain ⟨s, hs, hst⟩ := List.mem_map.1 h
      have : s = T := String.ext hst
      exact this ▸ hs
    · intro h
      exact List.mem_map.2 ⟨T, h, rfl⟩

/-- C14 at the tokens Master, Running: the normalized status of "Master, Running" is
",Master,Running,", it contains ",Running," and ",Master,", and it does not
contain ",Down,". -/
theorem normalizedStatus_tokens_witness :
    normalizedStatus "Master, Running" = ",Master,Running," ∧
    stringsContains (normalizedStatus "Master, Running") ",Running," = true ∧
    stringsContains (normalizedStatus "Master, Running") ",Master," = true ∧
    ¬ stringsContains (normalizedStatus "Master, Running") ",Down," = true := by
  have hc : ∀ t ∈ ["Master", "Running"], ',' ∉ t.data := by decide
  have h1 := normalizedStatus_tokens ["Master", "Running"] "Running" (by decide) hc (by decide)
  have h2 := normalizedStatus_tokens ["Master", "Running"] "Master" (by decide) hc (by decide)
  have h3 := normalizedStatus_tokens ["Master", "Running"] "Down" (by decide) hc (by decide)
  exact ⟨h1.1, h1.2.2 (by decide), h2.2.2 (by decide), fun h => absurd (h3.2.1 h) (by decide)⟩

/-! ## Describe covers Collect -/

/-- What `Describe` lists: the descriptors of the four maps and of the two metrics of
the exporter itself. -/
theorem mem_Describe (m : MaxScale) (d : Option Desc) :
    d ∈ Describe m [] ↔
      d ∈ m.serverMetrics.map (fun kv => kv.2.Desc) ∨
      d ∈ m.serviceMetrics.map (fun kv => kv.2.Desc) ∨
      d ∈ m.maxscaleStatusMetrics.map (fun kv => kv.2.Desc) ∨
      d ∈ m.statusMetrics.map (fun kv => kv.2.Desc) ∨
      d = some m.up.desc ∨ d = some m.totalScrapes.desc := by
  simp only [Describe, List.nil_append, List.mem_append, List.mem_cons, List.mem_singleton,
    List.not_mem_nil, or_false, or_assoc]

/-- C15. On the declared catalogs, in every world and on every channel, `Collect`
returns, and every metric it has added to the channel (a sample of any of the
four parsers, the health gauge, the scrape counter) is under a descriptor that
`Describe` sends. `Describe` takes no world: its listing is the same whatever the
fetches do, and it is the same before and after the cycle. -/
theorem Collect_described (m : MaxScale) (w : World) (ch : Chan) (hm : Declared m) :
    ∃ r S, Collect m w ch = .ok r ∧ r.ch = ch ++ S ∧
      (∀ s ∈ S, some s.Desc ∈ Describe m []) ∧
      Describe r.m [] = Describe m [] := by
  obtain ⟨e1, e2, e3, e4, S1, S2, S3, S4, h1, h2, h3, h4, -, -, -, -, hc⟩ := Collect_run m w hm
  obtain ⟨r, hr, hrm, hrch, -⟩ := hc ch
  obtain ⟨T1, hT1, a1⟩ := parseServers_sent m w [] _ e1 (h1 [])
  obtain ⟨T2, hT2, a2⟩ := parseServices_sent m w [] _ e2 (h2 [])
  obtain ⟨T3, hT3, a3⟩ := parseMaxscaleStatus_sent m w [] _ e3 (h3 [])
  obtain ⟨T4, hT4, a4⟩ := parseThreadStatus_sent m w [] _ e4 (h4 [])
  rw [List.nil_append, List.nil_append] at hT1 hT2 hT3 hT4
  subst hT1 hT2 hT3 hT4
  refine ⟨r, S1 ++ S2 ++ S3 ++ S4 ++ [PMetric.gauge r.m.up, PMetric.counter r.m.totalScrapes],
    hr, by rw [hrch]; simp, ?_, ?_⟩
  · intro s hs
    rw [mem_Describe]
    simp only [List.mem_append, List.mem_cons, List.mem_singleton, List.not_mem_nil,
      or_false] at hs
    rcases hs with (((hs | hs) | hs) | hs) | hs | hs
    · obtain ⟨d, vt, v, l, rfl, -, hd⟩ := a1 s hs
      exact Or.inl hd
    · obtain ⟨d, vt, v, l, rfl, -, hd⟩ := a2 s hs
      exact Or.inr (Or.inl hd)
    · obtain ⟨d, vt, v, l, rfl, -, hd⟩ := a3 s hs
      exact Or.inr (Or.inr (Or.inl hd))
    · obtain ⟨d, vt, v, l, rfl, -, hd⟩ := a4 s hs
      exact Or.inr (Or.inr (Or.inr (Or.inl hd)))
    · rw [hs, hrm]
      exact Or.inr (Or.inr (Or.inr (Or.inr (Or.inl rfl))))
    · rw [hs, hrm]
      exact Or.inr (Or.inr (Or.inr (Or.inr (Or.inr rfl))))
  · rw [hrm]
    rfl

/-- C15 run in the world where every connection is refused: `Collect` sends only
the gauge and the counter, both listed by `Describe`, which lists 31 descriptors:
2 + 3 + 5 + 19 of the catalogs and the two of the exporter. -/
theorem Collect_described_witness :
    Declared exampleExporter ∧
    (Describe exampleExporter []).length = 31 ∧
    ∃ r S, Collect exampleExporter worldAllRefused [] = .ok r ∧ r.ch = S ∧
      ∀ s ∈ S, some s.Desc ∈ Describe exampleExporter [] := by
  refine ⟨⟨rfl, rfl, rfl, rfl⟩, rfl, ?_⟩
  obtain ⟨r, S, hr, hch, hall, -⟩ :=
    Collect_described exampleExporter worldAllRefused [] ⟨rfl, rfl, rfl, rfl⟩
  exact ⟨r, S, hr, by simpa using hch, hall⟩

end MaxCtrl
